import Mathlib

/-! kubekey: binary provisioning and cluster bootstrap.

A shallow embedding of `pkg/cluster/kubernetes/master.go` and
`pkg/cluster/preinstall/preinstall.go`.

* Go strings are Lean `String`s; the string functions of the Go standard
  library that the code uses (`strings.Contains`, `strings.TrimSpace`,
  `strings.Split`, `strings.Fields`, `regexp.FindAllString`) are written
  over the character list of the string.
* The package-level variables `clusterIsExist`, `allNodesName` and
  `clusterStatus` are the fields of an explicit state `St`.
* Everything outside the process (remote commands, local shell commands,
  the file system, the template and DNS collaborators) is an oracle `Env`
  that answers from the history of events issued so far; each function
  returns its outcome together with the new state, whose `trace` records
  every command issued, in order.
* A Go run-time panic (index out of range) is the outcome `panic`.
-/

namespace Kubekey

/-! ## Go strings -/

/-- Go `strings.Contains` on character lists: `sub` occurs in `s`. -/
def containsL (sub : List Char) : List Char → Bool
  | [] => sub.isEmpty
  | c :: cs => sub.isPrefixOf (c :: cs) || containsL sub cs

/-- Go `strings.Contains(s, substr)`. -/
def strContains (s substr : String) : Bool :=
  containsL substr.data s.data

/-- The white space of `unicode.IsSpace` in the Latin-1 range and the
Unicode spaces Go lists. -/
def isSpace (c : Char) : Bool :=
  c = '\t' || c = '\n' || c.toNat = 11 || c.toNat = 12 || c = '\r' || c = ' '
    || c.toNat = 0x85 || c.toNat = 0xA0 || c.toNat = 0x1680
    || (0x2000 ≤ c.toNat && c.toNat ≤ 0x200a)
    || c.toNat = 0x2028 || c.toNat = 0x2029 || c.toNat = 0x202f
    || c.toNat = 0x205f || c.toNat = 0x3000

/-- Go `strings.TrimSpace` on character lists. -/
def trimSpaceL (s : List Char) : List Char :=
  ((s.dropWhile isSpace).reverse.dropWhile isSpace).reverse

/-- Go `strings.TrimSpace(s)`. -/
def strTrimSpace (s : String) : String :=
  ⟨trimSpaceL s.data⟩

/-- The character class `[0-9|a-z]` of the certificate-key pattern: a digit,
the bar character, or a lower-case letter. -/
def keyClass (c : Char) : Bool :=
  ('0'.toNat ≤ c.toNat && c.toNat ≤ '9'.toNat) || c = '|'
    || ('a'.toNat ≤ c.toNat && c.toNat ≤ 'z'.toNat)

/-- The pattern `[0-9|a-z]{64}` matches at the start of `s`. -/
def matchHere (s : List Char) : Bool :=
  decide (64 ≤ s.length) && (s.take 64).all keyClass

/-- The successive non-overlapping leftmost matches of `[0-9|a-z]{64}`;
`skip` counts the characters of the current match still to pass over. -/
def findAllL : List Char → Nat → List (List Char)
  | [], _ => []
  | _ :: cs, skip + 1 => findAllL cs skip
  | c :: cs, 0 =>
    if matchHere (c :: cs) then (c :: cs).take 64 :: findAllL cs 63
    else findAllL cs 0

/-- Go `regexp.MustCompile("[0-9|a-z]{64}").FindAllString(s, -1)`. -/
def FindAllString (s : String) : List String :=
  (findAllL s.data 0).map String.mk

/-- Go `strings.Split` on character lists for a non-empty separator: `cur`
is the piece being read (reversed), `skip` the separator characters still to
pass over. -/
def splitL (sep : List Char) : List Char → Nat → List Char → List (List Char)
  | [], _, cur => [cur.reverse]
  | _ :: cs, skip + 1, cur => splitL sep cs skip cur
  | c :: cs, 0, cur =>
    if sep.isPrefixOf (c :: cs) then cur.reverse :: splitL sep cs (sep.length - 1) []
    else splitL sep cs 0 (c :: cur)

/-- Go `strings.Split(s, sep)` for a non-empty `sep`. -/
def strSplit (s sep : String) : List String :=
  (splitL sep.data s.data 0 []).map String.mk

/-- Go `strings.Fields` on character lists: the maximal runs of non-space
characters; `cur` is the field being read (reversed). -/
def fieldsL : List Char → List Char → List (List Char)
  | [], cur => if cur.isEmpty then [] else [cur.reverse]
  | c :: cs, cur =>
    if isSpace c then
      (if cur.isEmpty then fieldsL cs [] else cur.reverse :: fieldsL cs [])
    else fieldsL cs (c :: cur)

/-- Go `strings.Fields(s)`. -/
def strFields (s : String) : List String :=
  (fieldsL s.data []).map String.mk

/-! ## Go maps with string keys and values -/

/-- A `map[string]string`, as an association list with distinct keys. -/
abbrev GoMap := List (String × String)

/-- The read `m[k]`: the zero value `""` when the key is absent. -/
def mapGet : GoMap → String → String
  | [], _ => ""
  | (k', v') :: rest, k => if k' = k then v' else mapGet rest k

/-- The key `k` is present in `m`. -/
def mapHas : GoMap → String → Bool
  | [], _ => false
  | (k', _) :: rest, k => if k' = k then true else mapHas rest k

/-- The write `m[k] = v`. -/
def mapSet : GoMap → String → String → GoMap
  | [], k, v => [(k, v)]
  | (k', v') :: rest, k, v =>
    if k' = k then (k, v) :: rest else (k', v') :: mapSet rest k v

/-! ## Data model -/

/-- The fields of `kubekeyapi.HostCfg` the code reads. -/
structure HostCfg where
  Name : String
  InternalAddress : String
  Arch : String
  IsEtcd : Bool
  IsMaster : Bool
  IsWorker : Bool
deriving DecidableEq, Repr

/-- The fields of `files.KubeBinary`. -/
structure KubeBinary where
  Name : String
  Arch : String
  Version : String
  Url : String
  Path : String
  GetCmd : String
deriving DecidableEq, Repr

/-- What a command gives back: its output and its error (`none` is `nil`). -/
structure CmdResult where
  output : String
  err : Option String
deriving DecidableEq, Repr

/-- One interaction with the world outside the process. -/
inductive Event where
  /-- A command run on the node by `mgr.Runner.ExecuteCmd`. -/
  | remote (cmd : String)
  /-- A command run on the installer machine by `exec.Command("/bin/sh", "-c", cmd)`. -/
  | localSh (cmd : String)
  /-- A call of `tmpl.GenerateKubeadmCfg`. -/
  | generateKubeadmCfg
  /-- A call of `dns.CreateClusterDns`. -/
  | createClusterDns
deriving DecidableEq, Repr

/-- How a function ends: `nil`, an error value, or a run-time panic. -/
inductive Outcome where
  | ok
  | error (msg : String)
  | panic (msg : String)
deriving DecidableEq, Repr

/-- The world outside the process. Every answer may depend on the whole
history of events issued so far. -/
structure Env where
  /-- The remote executor `mgr.Runner.ExecuteCmd(cmd, retries, printOutput)`. -/
  executeCmd : List Event → String → Nat → Bool → CmdResult
  /-- The local shell: `exec.Command("/bin/sh", "-c", cmd).CombinedOutput()`. -/
  sh : List Event → String → CmdResult
  /-- The local file test `util.IsExist(path)`. -/
  isExist : List Event → String → Bool
  /-- The template collaborator `tmpl.GenerateKubeadmCfg(mgr)`. -/
  generateKubeadmCfg : List Event → Except String String
  /-- The DNS collaborator `dns.CreateClusterDns(mgr)`. -/
  createClusterDns : List Event → Option String
  /-- The environment variable read `os.Getenv(name)`. -/
  getenv : String → String
  /-- The checksum table behind `binary.GetSha256()`. -/
  getSha256 : KubeBinary → String
  /-- Go `base64.StdEncoding.EncodeToString([]byte(s))`. -/
  base64Encode : String → String
  /-- Go `filepath.Join(dir, name)`. -/
  pathJoin : String → String → String
  /-- The constant `kubekeyapi.DefaultCniVersion`. -/
  DefaultCniVersion : String
  /-- The constant `kubekeyapi.DefaultHelmVersion`. -/
  DefaultHelmVersion : String

/-- The fields of `manager.Manager` the code reads. -/
structure Manager where
  env : Env
  /-- The field `mgr.Runner.Index`: the position of the node in its task. -/
  Index : Nat
  WorkDir : String
  MasterNodes : List HostCfg
  /-- The field `mgr.Cluster.KubeSphere.Version`. -/
  KubeSphereVersion : String

/-- The package-level variables of `master.go` and the history of events. -/
structure St where
  clusterIsExist : Bool
  allNodesName : GoMap
  clusterStatus : GoMap
  trace : List Event
deriving DecidableEq, Repr

/-- The package-level variables as initialised, before anything ran. -/
def initialState : St where
  clusterIsExist := false
  allNodesName := []
  clusterStatus :=
    [("version", ""), ("joinMasterCmd", ""), ("joinWorkerCmd", ""),
     ("clusterInfo", ""), ("kubeConfig", "")]
  trace := []

/-- The message of `errors.Wrap(err, msg)`. -/
def wrap (err msg : String) : String :=
  msg ++ ": " ++ err

/-- The format `sudo -E /bin/sh -c "%s"`. -/
def sudoSh (cmd : String) : String :=
  "sudo -E /bin/sh -c \"" ++ cmd ++ "\""

/-- The call `mgr.Runner.ExecuteCmd(cmd, retries, printOutput)`: the answer
of the executor and the state with the command recorded. -/
def ExecuteCmd (mgr : Manager) (cmd : String) (retries : Nat) (printOutput : Bool)
    (s : St) : CmdResult × St :=
  (mgr.env.executeCmd s.trace cmd retries printOutput,
   { s with trace := s.trace ++ [Event.remote cmd] })

/-- The call `exec.Command("/bin/sh", "-c", cmd).CombinedOutput()` on a trace. -/
def localCommand (env : Env) (cmd : String) (tr : List Event) : CmdResult × List Event :=
  (env.sh tr cmd, tr ++ [Event.localSh cmd])

/-! ## `pkg/cluster/kubernetes/master.go` -/

/-- The write `clusterStatus[k] = v`. -/
def setStatus (s : St) (k v : String) : St :=
  { s with clusterStatus := mapSet s.clusterStatus k v }

/-- Modelled from the spec: `ExistNodeName` is declared outside the files at
hand; the spec describes the guard as "the node's name is already present in
the known-node-names set", so it is the key test on `allNodesName`. -/
def ExistNodeName (s : St) (name : String) : Bool :=
  mapHas s.allNodesName name

/-- The function `GetKubeConfig`. -/
def GetKubeConfig (mgr : Manager) (s : St) : Outcome × St :=
  let createConfigDirCmd := "mkdir -p /root/.kube && mkdir -p $HOME/.kube"
  let getKubeConfigCmd := "cp -f /etc/kubernetes/admin.conf /root/.kube/config"
  let getKubeConfigCmdUsr := "cp -f /etc/kubernetes/admin.conf $HOME/.kube/config"
  let chownKubeConfig := "chown $(id -u):$(id -g) $HOME/.kube/config"
  let cmd := createConfigDirCmd ++ " && " ++ getKubeConfigCmd ++ " && "
    ++ getKubeConfigCmdUsr ++ " && " ++ chownKubeConfig
  let r := ExecuteCmd mgr (sudoSh cmd) 2 false s
  match r.1.err with
  | some e => (Outcome.error (wrap e "Failed to init kubernetes cluster"), r.2)
  | none => (Outcome.ok, r.2)

/-- The function `removeMasterTaint`. -/
def removeMasterTaint (mgr : Manager) (node : HostCfg) (s : St) : Outcome × St :=
  if node.IsWorker then
    let removeMasterTaintCmd := "sudo -E /bin/sh -c \"/usr/local/bin/kubectl taint nodes "
      ++ node.Name ++ " node-role.kubernetes.io/master=:NoSchedule-\""
    let r := ExecuteCmd mgr removeMasterTaintCmd 5 true s
    match r.1.err with
    | some e => (Outcome.error (wrap e "Failed to remove master taint"), r.2)
    | none => (Outcome.ok, r.2)
  else (Outcome.ok, s)

/-- The function `addWorkerLabel`: the result of the command is dropped. -/
def addWorkerLabel (mgr : Manager) (node : HostCfg) (s : St) : Outcome × St :=
  if node.IsWorker then
    let addWorkerLabelCmd := "sudo -E /bin/sh -c \"/usr/local/bin/kubectl label --overwrite node "
      ++ node.Name ++ " node-role.kubernetes.io/worker=\""
    (Outcome.ok, (ExecuteCmd mgr addWorkerLabelCmd 5 true s).2)
  else (Outcome.ok, s)

/-- The command of `PatchKubeadmSecret` for one certificate entry. -/
def patchSecretCmd (cert : String) : String :=
  "sudo -E /bin/sh -c \"/usr/local/bin/kubectl patch -n kube-system secret kubeadm-certs -p '\x7b\\\"data\\\": \x7b\\\"" ++ cert ++ "\\\": \\\"\\\"\x7d\x7d'\""

/-- The loop of `PatchKubeadmSecret` over the remaining certificate entries. -/
def patchLoop (mgr : Manager) : List String → St → Outcome × St
  | [], s => (Outcome.ok, s)
  | cert :: rest, s =>
    let r := ExecuteCmd mgr (patchSecretCmd cert) 5 true s
    match r.1.err with
    | some e => (Outcome.error (wrap e "Failed to patch kubeadm secret"), r.2)
    | none => patchLoop mgr rest r.2

/-- The function `PatchKubeadmSecret`. -/
def PatchKubeadmSecret (mgr : Manager) (s : St) : Outcome × St :=
  patchLoop mgr ["external-etcd-ca.crt", "external-etcd.crt", "external-etcd.key"] s

/-- The loop of `getJoinCmd` over the rows `tmp[i]` of the node listing:
`allNodesName[strings.Fields(tmp[i])[0]] = strings.Fields(tmp[i])[0]`. -/
def nodeNamesLoop : List String → St → Outcome × St
  | [], s => (Outcome.ok, s)
  | row :: rest, s =>
    match strFields row with
    | [] => (Outcome.panic "index out of range [0] with length 0", s)
    | name :: _ =>
      nodeNamesLoop rest { s with allNodesName := mapSet s.allNodesName name name }

/-- The statement `if len(tmp) > 1 { for i := 0; i < len(tmp); i++ { ... } }`
of `getJoinCmd`. -/
def recordNodeNames (tmp : List String) (s : St) : Outcome × St :=
  if tmp.length > 1 then nodeNamesLoop tmp s else (Outcome.ok, s)

/-- The function `getJoinCmd`. -/
def getJoinCmd (mgr : Manager) (s : St) : Outcome × St :=
  let uploadCertsCmd := "/usr/local/bin/kubeadm init phase upload-certs --upload-certs"
  let r := ExecuteCmd mgr (sudoSh uploadCertsCmd) 5 true s
  match r.1.err with
  | some e => (Outcome.error (wrap e "Failed to upload kubeadm certs"), r.2)
  | none =>
    match FindAllString r.1.output with
    | [] => (Outcome.panic "index out of range [0] with length 0", r.2)
    | certificateKey :: _ =>
      match PatchKubeadmSecret mgr r.2 with
      | (Outcome.ok, s1) =>
        let tokenCreateMasterCmd := "/usr/local/bin/kubeadm token create --print-join-command"
        let r2 := ExecuteCmd mgr (sudoSh tokenCreateMasterCmd) 5 true s1
        match r2.1.err with
        | some e => (Outcome.error (wrap e "Failed to get join node cmd"), r2.2)
        | none =>
          match strSplit r2.1.output "kubeadm join" with
          | _ :: tail :: _ =>
            let s2 : St := setStatus r2.2 "joinWorkerCmd" ("/usr/local/bin/kubeadm join " ++ tail)
            let s3 : St := setStatus s2 "joinMasterCmd"
              (mapGet s2.clusterStatus "joinWorkerCmd"
                ++ " --control-plane --certificate-key " ++ certificateKey)
            let r3 := ExecuteCmd mgr
              "sudo -E /bin/sh -c \"/usr/local/bin/kubectl get nodes -o wide\"" 5 true s3
            match r3.1.err with
            | some e => (Outcome.error (wrap e "Failed to get cluster info"), r3.2)
            | none =>
              let s4 : St := setStatus r3.2 "clusterInfo" r3.1.output
              let tmp := strSplit (mapGet s4.clusterStatus "clusterInfo") "\r\n"
              match recordNodeNames tmp s4 with
              | (Outcome.ok, s5) =>
                let kubeCfgBase64Cmd := "cat /etc/kubernetes/admin.conf | base64 --wrap=0"
                let r4 := ExecuteCmd mgr (sudoSh kubeCfgBase64Cmd) 1 false s5
                match r4.1.err with
                | some e => (Outcome.error (wrap e "Failed to get cluster kubeconfig"), r4.2)
                | none =>
                  (Outcome.ok, setStatus r4.2 "kubeConfig" r4.1.output)
              | other => other
          | _ => (Outcome.panic "index out of range [1] with length 1", r2.2)
      | other => other

/-- The function `getJoinNodesCmd`. -/
def getJoinNodesCmd (mgr : Manager) (s : St) : Outcome × St :=
  getJoinCmd mgr s

/-- The function `getClusterStatus`. -/
def getClusterStatus (mgr : Manager) (_node : HostCfg) (s : St) : Outcome × St :=
  if mapGet s.clusterStatus "clusterInfo" = "" then
    let r := ExecuteCmd mgr "sudo -E /bin/sh -c \"[ -f /etc/kubernetes/admin.conf ] && echo 'Cluster already exists.' || echo 'Cluster will be created.'\"" 0 true s
    if strContains r.1.output "Cluster will be created" then
      (Outcome.ok, { r.2 with clusterIsExist := false })
    else
      match r.1.err with
      | some e => (Outcome.error (wrap e "Failed to find /etc/kubernetes/admin.conf"), r.2)
      | none =>
        let s1 : St := { r.2 with clusterIsExist := true }
        let r2 := ExecuteCmd mgr "sudo cat /etc/kubernetes/manifests/kube-apiserver.yaml | grep 'image:' | awk -F '[:]' '\x7bprint $(NF-0)\x7d'" 0 true s1
        match r2.1.err with
        | some e => (Outcome.error (wrap e "Failed to find current version"), r2.2)
        | none =>
          let s2 : St :=
            if !strContains r2.1.output "No such file or directory" then
              setStatus r2.2 "version" r2.1.output
            else r2.2
          getJoinNodesCmd mgr s2
  else (Outcome.ok, s)

/-- The command that force-resets the node between attempts. -/
def resetCmd : String :=
  "sudo -E /bin/sh -c \"/usr/local/bin/kubeadm reset -f\""

/-- The command that initialises the control plane. -/
def kubeadmInitCmd : String :=
  "sudo -E /bin/sh -c \"/usr/local/bin/kubeadm init --config=/etc/kubernetes/kubeadm-config.yaml\""

/-- The loop `for i := 0; i < 3; i++` that `initKubernetesCluster`,
`addMaster` and `addWorker` each write out: run `cmd`; on an error return it
wrapped with `msg` when `i == 2`, else run the reset command and go on; on
success leave the loop. `fuel` bounds the iterations (3 suffice). -/
def retryLoop (mgr : Manager) (cmd msg : String) : Nat → Nat → St → Outcome × St
  | 0, _, s => (Outcome.ok, s)
  | fuel + 1, i, s =>
    if i < 3 then
      let r := ExecuteCmd mgr cmd 0 true s
      match r.1.err with
      | some e =>
        if i = 2 then (Outcome.error (wrap e msg), r.2)
        else retryLoop mgr cmd msg fuel (i + 1) (ExecuteCmd mgr resetCmd 0 true r.2).2
      | none => (Outcome.ok, r.2)
    else (Outcome.ok, s)

/-- A local command, run on the trace of the state `s`. -/
def onTrace (s : St) (r : CmdResult × List Event) : CmdResult × St :=
  (r.1, { s with trace := r.2 })

/-- The function `loadKubeConfig`. -/
def loadKubeConfig (mgr : Manager) (s : St) : Outcome × St :=
  let kubeConfigPath := mgr.env.pathJoin mgr.WorkDir "config"
  let loadKubeConfigCmd :=
    "echo " ++ mapGet s.clusterStatus "kubeConfig" ++ " | base64 -d > " ++ kubeConfigPath
  let r := onTrace s (localCommand mgr.env loadKubeConfigCmd s.trace)
  match r.1.err with
  | some e => (Outcome.error (wrap e r.1.output), r.2)
  | none =>
    match mgr.MasterNodes with
    | [] => (Outcome.panic "index out of range [0] with length 0", r.2)
    | master0 :: _ =>
      let replaceApiServerAddCmd := "sed -i '/server:/s/\\:.*/\\: "
        ++ ("https\\:\\/\\/" ++ master0.InternalAddress ++ "\\:6443") ++ "/g' " ++ kubeConfigPath
      let r2 := onTrace r.2 (localCommand mgr.env replaceApiServerAddCmd r.2.trace)
      match r2.1.err with
      | some e => (Outcome.error (wrap e r2.1.output), r2.2)
      | none => (Outcome.ok, r2.2)

/-- The first part of `initKubernetesCluster`: the base64 text of the
kubeadm configuration, from the operator's file when it exists, else from
the template. -/
def kubeadmCfgBase64 (mgr : Manager) (s : St) : Except Outcome String × St :=
  if mgr.env.isExist s.trace (mgr.WorkDir ++ "/kubeadm-config.yaml") then
    let r := onTrace s (localCommand mgr.env
      ("cat " ++ mgr.WorkDir ++ "/kubeadm-config.yaml | base64 --wrap=0") s.trace)
    match r.1.err with
    | some e => (Except.error (Outcome.error (wrap e
        ("Failed to read custom kubeadm config: " ++ mgr.WorkDir ++ "/kubeadm-config.yaml"))), r.2)
    | none => (Except.ok (strTrimSpace r.1.output), r.2)
  else
    let s1 : St := { s with trace := s.trace ++ [Event.generateKubeadmCfg] }
    match mgr.env.generateKubeadmCfg s.trace with
    | Except.error e => (Except.error (Outcome.error e), s1)
    | Except.ok kubeadmCfg => (Except.ok (mgr.env.base64Encode kubeadmCfg), s1)

/-- The call `dns.CreateClusterDns(mgr)`. -/
def CreateClusterDns (mgr : Manager) (s : St) : Outcome × St :=
  let s1 : St := { s with trace := s.trace ++ [Event.createClusterDns] }
  match mgr.env.createClusterDns s.trace with
  | some e => (Outcome.error e, s1)
  | none => (Outcome.ok, s1)

/-- The function `initKubernetesCluster`. -/
def initKubernetesCluster (mgr : Manager) (node : HostCfg) (s : St) : Outcome × St :=
  if mgr.Index = 0 ∧ s.clusterIsExist = false then
    match kubeadmCfgBase64 mgr s with
    | (Except.error o, s1) => (o, s1)
    | (Except.ok cfg, s1) =>
      let r1 := ExecuteCmd mgr ("sudo -E /bin/sh -c \"mkdir -p /etc/kubernetes && echo "
        ++ cfg ++ " | base64 -d > /etc/kubernetes/kubeadm-config.yaml\"") 1 false s1
      match r1.1.err with
      | some e => (Outcome.error (wrap e "Failed to generate kubeadm config"), r1.2)
      | none =>
        match retryLoop mgr kubeadmInitCmd "Failed to init kubernetes cluster" 3 0 r1.2 with
        | (Outcome.ok, s2) =>
          match GetKubeConfig mgr s2 with
          | (Outcome.ok, s3) =>
            match removeMasterTaint mgr node s3 with
            | (Outcome.ok, s4) =>
              match addWorkerLabel mgr node s4 with
              | (Outcome.ok, s5) =>
                match CreateClusterDns mgr s5 with
                | (Outcome.ok, s6) =>
                  let s7 : St := { s6 with clusterIsExist := true }
                  match getJoinNodesCmd mgr s7 with
                  | (Outcome.ok, s8) => loadKubeConfig mgr s8
                  | other => other
                | other => other
              | other => other
            | other => other
          | other => other
        | other => other
  else (Outcome.ok, s)

/-- The function `addMaster`. -/
def addMaster (mgr : Manager) (s : St) : Outcome × St :=
  match retryLoop mgr (sudoSh (mapGet s.clusterStatus "joinMasterCmd"))
      "Failed to add master to cluster" 3 0 s with
  | (Outcome.ok, s1) => GetKubeConfig mgr s1
  | other => other

/-- The function `addWorker`. -/
def addWorker (mgr : Manager) (s : St) : Outcome × St :=
  match retryLoop mgr (sudoSh (mapGet s.clusterStatus "joinWorkerCmd"))
      "Failed to add worker to cluster" 3 0 s with
  | (Outcome.ok, s1) =>
    let createConfigDirCmd := "mkdir -p /root/.kube && mkdir -p $HOME/.kube"
    let chownKubeConfig := "chown $(id -u):$(id -g) -R $HOME/.kube"
    let r1 := ExecuteCmd mgr (sudoSh createConfigDirCmd) 1 false s1
    match r1.1.err with
    | some e => (Outcome.error (wrap e "Failed to create kube dir"), r1.2)
    | none =>
      let syncKubeconfigForRootCmd := "sudo -E /bin/sh -c \"echo "
        ++ mapGet s1.clusterStatus "kubeConfig" ++ " | base64 -d > " ++ "/root/.kube/config" ++ "\""
      let syncKubeconfigForUserCmd := "echo " ++ mapGet s1.clusterStatus "kubeConfig"
        ++ " | base64 -d > " ++ "$HOME/.kube/config" ++ " && " ++ chownKubeConfig
      let r2 := ExecuteCmd mgr syncKubeconfigForRootCmd 1 false r1.2
      match r2.1.err with
      | some e => (Outcome.error (wrap e "Failed to sync kube config"), r2.2)
      | none =>
        let r3 := ExecuteCmd mgr (sudoSh syncKubeconfigForUserCmd) 1 false r2.2
        match r3.1.err with
        | some e => (Outcome.error (wrap e "Failed to sync kube config"), r3.2)
        | none => (Outcome.ok, r3.2)
  | other => other

/-- The function `joinNodesToCluster`. -/
def joinNodesToCluster (mgr : Manager) (node : HostCfg) (s : St) : Outcome × St :=
  if !ExistNodeName s node.Name then
    match (if node.IsMaster then
        (match addMaster mgr s with
         | (Outcome.ok, s1) =>
           match removeMasterTaint mgr node s1 with
           | (Outcome.ok, s2) => addWorkerLabel mgr node s2
           | other => other
         | other => other)
      else (Outcome.ok, s)) with
    | (Outcome.ok, s3) =>
      if node.IsWorker && !node.IsMaster then
        match addWorker mgr s3 with
        | (Outcome.ok, s4) => addWorkerLabel mgr node s4
        | other => other
      else (Outcome.ok, s3)
    | other => other
  else (Outcome.ok, s)

/-! ## `pkg/cluster/preinstall/preinstall.go` -/

/-- The error of `SHA256Check` for a version without a checksum entry. -/
def noSha256Error (version : String) : String :=
  "No SHA256 found for " ++ version ++ ". " ++ version ++ " is not supported."

/-- The error of `SHA256Check` for a digest that differs. -/
def sha256MismatchError (expected output : String) : String :=
  "SHA256 no match. " ++ expected ++ " not in " ++ output

/-- The function `SHA256Check`. -/
def SHA256Check (env : Env) (binary : KubeBinary) (version : String)
    (tr : List Event) : Outcome × List Event :=
  let r := localCommand env ("sha256sum " ++ binary.Path) tr
  match r.1.err with
  | some e => (Outcome.error (wrap e ("Failed to check SHA256 of " ++ binary.Path)), r.2)
  | none =>
    if strTrimSpace (env.getSha256 binary) = "" then
      (Outcome.error (noSha256Error version), r.2)
    else if !strContains (strTrimSpace r.1.output) (env.getSha256 binary) then
      (Outcome.error (sha256MismatchError (env.getSha256 binary) (strTrimSpace r.1.output)), r.2)
    else (Outcome.ok, r.2)

/-- The binaries `kubeadm, kubelet, kubectl, helm, kubecni` that
`FilesDownloadHttp` builds, with path, URL and download command filled in,
in the order of the slice `binaries`. -/
def kubeBinaries (env : Env) (filepath version arch : String) : List KubeBinary :=
  let kkzone := env.getenv "KKZONE"
  let cni := env.DefaultCniVersion
  let helmV := env.DefaultHelmVersion
  let kubeadmPath := filepath ++ "/kubeadm"
  let kubeletPath := filepath ++ "/kubelet"
  let kubectlPath := filepath ++ "/kubectl"
  let kubecniPath := filepath ++ "/cni-plugins-linux-" ++ arch ++ "-" ++ cni ++ ".tgz"
  let helmPath := filepath ++ "/helm"
  let kubeadmUrl :=
    if kkzone = "cn" then
      "https://kubernetes-release.pek3b.qingstor.com/release/" ++ version ++ "/bin/linux/" ++ arch ++ "/kubeadm"
    else
      "https://storage.googleapis.com/kubernetes-release/release/" ++ version ++ "/bin/linux/" ++ arch ++ "/kubeadm"
  let kubeletUrl :=
    if kkzone = "cn" then
      "https://kubernetes-release.pek3b.qingstor.com/release/" ++ version ++ "/bin/linux/" ++ arch ++ "/kubelet"
    else
      "https://storage.googleapis.com/kubernetes-release/release/" ++ version ++ "/bin/linux/" ++ arch ++ "/kubelet"
  let kubectlUrl :=
    if kkzone = "cn" then
      "https://kubernetes-release.pek3b.qingstor.com/release/" ++ version ++ "/bin/linux/" ++ arch ++ "/kubectl"
    else
      "https://storage.googleapis.com/kubernetes-release/release/" ++ version ++ "/bin/linux/" ++ arch ++ "/kubectl"
  let kubecniUrl :=
    if kkzone = "cn" then
      "https://containernetworking.pek3b.qingstor.com/plugins/releases/download/" ++ cni
        ++ "/cni-plugins-linux-" ++ arch ++ "-" ++ cni ++ ".tgz"
    else
      "https://github.com/containernetworking/plugins/releases/download/" ++ cni
        ++ "/cni-plugins-linux-" ++ arch ++ "-" ++ cni ++ ".tgz"
  let helmUrl :=
    if kkzone = "cn" then
      "https://kubernetes-helm.pek3b.qingstor.com/linux-" ++ arch ++ "/" ++ helmV ++ "/helm"
    else
      "https://get.helm.sh/helm-" ++ helmV ++ "-linux-" ++ arch ++ ".tar.gz"
  let helmGetCmd :=
    if kkzone = "cn" then
      "curl -o " ++ helmPath ++ "  " ++ helmUrl
    else
      "curl -o " ++ filepath ++ "/helm-" ++ helmV ++ "-linux-" ++ arch ++ ".tar.gz  " ++ helmUrl
        ++ " && cd " ++ filepath ++ " && tar -zxf helm-" ++ helmV ++ "-linux-" ++ arch
        ++ ".tar.gz && mv linux-" ++ arch ++ "/helm . && rm -rf *linux-" ++ arch ++ "*"
  [ { Name := "kubeadm", Arch := arch, Version := version, Url := kubeadmUrl,
      Path := kubeadmPath, GetCmd := "curl -L -o " ++ kubeadmPath ++ "  " ++ kubeadmUrl },
    { Name := "kubelet", Arch := arch, Version := version, Url := kubeletUrl,
      Path := kubeletPath, GetCmd := "curl -L -o " ++ kubeletPath ++ "  " ++ kubeletUrl },
    { Name := "kubectl", Arch := arch, Version := version, Url := kubectlUrl,
      Path := kubectlPath, GetCmd := "curl -L -o " ++ kubectlPath ++ "  " ++ kubectlUrl },
    { Name := "helm", Arch := arch, Version := helmV, Url := helmUrl,
      Path := helmPath, GetCmd := helmGetCmd },
    { Name := "kubecni", Arch := arch, Version := cni, Url := kubecniUrl,
      Path := kubecniPath, GetCmd := "curl -L -o " ++ kubecniPath ++ "  " ++ kubecniUrl } ]

/-- The URL from which `FilesDownloadHttp` downloads `helm2`. -/
def helm2Url (arch : String) : String :=
  "https://kubernetes-helm.pek3b.qingstor.com/linux-" ++ arch ++ "/" ++ "v2.16.9" ++ "/helm"

/-- The command with which `FilesDownloadHttp` downloads `helm2`. -/
def helm2Cmd (filepath arch : String) : String :=
  "curl -o " ++ filepath ++ "/helm2 " ++ helm2Url arch

/-- The command that deletes a file whose check failed. -/
def rmCmd (path : String) : String :=
  "rm -f " ++ path

/-- The loop `for i := 5; i > 0; i--` of `FilesDownloadHttp` for one binary,
entered with the counter at `i`. -/
def downloadLoop (env : Env) (binary : KubeBinary) (version : String) :
    Nat → List Event → Outcome × List Event
  | 0, tr => (Outcome.ok, tr)
  | i + 1, tr =>
    let r := localCommand env binary.GetCmd tr
    match r.1.err with
    | some _ =>
      (Outcome.error ("Failed to download " ++ binary.Name ++ " binary: " ++ binary.GetCmd), r.2)
    | none =>
      match SHA256Check env binary version r.2 with
      | (Outcome.ok, tr1) => (Outcome.ok, tr1)
      | (o, tr1) =>
        if i + 1 = 1 then (o, tr1)
        else downloadLoop env binary version i (localCommand env (rmCmd binary.Path) tr1).2

/-- The body of the loop `for _, binary := range binaries`. -/
def binaryLoopBody (env : Env) (version : String) (binary : KubeBinary)
    (tr : List Event) : Outcome × List Event :=
  if env.isExist tr binary.Path = false then downloadLoop env binary version 5 tr
  else SHA256Check env binary version tr

/-- The loop `for _, binary := range binaries`. -/
def binariesLoop (env : Env) (version : String) :
    List KubeBinary → List Event → Outcome × List Event
  | [], tr => (Outcome.ok, tr)
  | binary :: rest, tr =>
    match binaryLoopBody env version binary tr with
    | (Outcome.ok, tr1) => binariesLoop env version rest tr1
    | other => other

/-- The function `FilesDownloadHttp`. -/
def FilesDownloadHttp (mgr : Manager) (filepath version arch : String)
    (tr : List Event) : Outcome × List Event :=
  match binariesLoop mgr.env version (kubeBinaries mgr.env filepath version arch) tr with
  | (Outcome.ok, tr1) =>
    if mgr.KubeSphereVersion = "v2.1.1" then
      if mgr.env.isExist tr1 (filepath ++ "/helm2") = false then
        let r := localCommand mgr.env (helm2Cmd filepath arch) tr1
        match r.1.err with
        | some e => (Outcome.error (wrap e "Failed to download helm2 binary"), r.2)
        | none => (Outcome.ok, r.2)
      else (Outcome.ok, tr1)
    else (Outcome.ok, tr1)
  | other => other

/-! ## Vocabulary of the properties -/

/-- A hexadecimal digit, of either case. -/
def isHexDigit (c : Char) : Bool :=
  ('0'.toNat ≤ c.toNat && c.toNat ≤ '9'.toNat)
    || ('a'.toNat ≤ c.toNat && c.toNat ≤ 'f'.toNat)
    || ('A'.toNat ≤ c.toNat && c.toNat ≤ 'F'.toNat)

/-- A hexadecimal digit in lower case, as `kubeadm` prints certificate keys. -/
def isLowerHex (c : Char) : Bool :=
  ('0'.toNat ≤ c.toNat && c.toNat ≤ '9'.toNat)
    || ('a'.toNat ≤ c.toNat && c.toNat ≤ 'f'.toNat)

/-- The command that uploads the certificates, as `getJoinCmd` issues it. -/
def uploadCertsCmd : String :=
  sudoSh "/usr/local/bin/kubeadm init phase upload-certs --upload-certs"

/-- The command with which `getClusterStatus` probes the node for the
control-plane marker file `/etc/kubernetes/admin.conf`. -/
def probeCmd : String :=
  "sudo -E /bin/sh -c \"[ -f /etc/kubernetes/admin.conf ] && echo 'Cluster already exists.' || echo 'Cluster will be created.'\""

/-! ## A sample world, for evaluating the code -/

/-- A certificate key: 64 hexadecimal digits in lower case. -/
def sampleKey : String :=
  "0123456789abcdef0123456789abcdef0123456789abcdef0123456789abcdef"

/-- A word of 64 lower-case letters, none of them a hexadecimal digit. -/
def longWord : String :=
  "zzzzzzzzzzzzzzzzzzzzzzzzzzzzzzzzzzzzzzzzzzzzzzzzzzzzzzzzzzzzzzzz"

/-- The answers of a control-plane node on which every command succeeds: the
upload prints `uploadOutput`, the token command prints a join command, the
node query a listing of two rows, the probe finds the marker file. -/
def sampleExecuteCmd (uploadOutput : String) (_ : List Event) (cmd : String) (_ : Nat)
    (_ : Bool) : CmdResult :=
  if cmd = uploadCertsCmd then
    { output := uploadOutput, err := none }
  else if cmd = sudoSh "/usr/local/bin/kubeadm token create --print-join-command" then
    { output := "kubeadm join 10.0.0.1:6443 --token abcdef.0123456789abcdef", err := none }
  else if cmd = "sudo -E /bin/sh -c \"/usr/local/bin/kubectl get nodes -o wide\"" then
    { output := "NAME STATUS\r\nmaster1 Ready", err := none }
  else if cmd = probeCmd then
    { output := "Cluster already exists.\n", err := none }
  else { output := "", err := none }

/-- A world around `sampleExecuteCmd`: no local file exists, every local
command succeeds with empty output. -/
def sampleEnv (uploadOutput : String) : Env where
  executeCmd := sampleExecuteCmd uploadOutput
  sh := fun _ _ => { output := "", err := none }
  isExist := fun _ _ => false
  generateKubeadmCfg := fun _ => Except.ok "kind: ClusterConfiguration"
  createClusterDns := fun _ => none
  getenv := fun _ => ""
  getSha256 := fun _ => ""
  base64Encode := fun s => s
  pathJoin := fun d n => d ++ "/" ++ n
  DefaultCniVersion := "v0.8.6"
  DefaultHelmVersion := "v3.2.1"

/-- The first control-plane node of a one-master cluster in `sampleEnv`. -/
def sampleMgr (uploadOutput : String) : Manager where
  env := sampleEnv uploadOutput
  Index := 0
  WorkDir := "/root/kk"
  MasterNodes := [{ Name := "master1", InternalAddress := "10.0.0.1", Arch := "amd64",
                    IsEtcd := true, IsMaster := true, IsWorker := false }]
  KubeSphereVersion := ""

/-- The output of the upload command as `kubeadm` prints it. -/
def sampleUploadOutput : String :=
  "[upload-certs] Using certificate key:\n" ++ sampleKey ++ "\n"

/-- An output of the upload command without the line of the certificate key. -/
def uploadOutputWithoutKey : String :=
  "[upload-certs] Storing the certificates in Secret \"kubeadm-certs\" in the \"kube-system\" Namespace\n"

/-- The master of the sample world. -/
def sampleMaster : HostCfg :=
  { Name := "master1", InternalAddress := "10.0.0.1", Arch := "amd64",
    IsEtcd := true, IsMaster := true, IsWorker := false }

/-- A node that is both master and worker. -/
def sampleNode : HostCfg :=
  { Name := "node1", InternalAddress := "10.0.0.2", Arch := "amd64",
    IsEtcd := false, IsMaster := true, IsWorker := true }

/-! ## Vocabulary of the download properties -/

/-- The events of one download attempt on `b`: the download, then the check. -/
def attemptEvents (b : KubeBinary) : List Event :=
  [Event.localSh b.GetCmd, Event.localSh ("sha256sum " ++ b.Path)]

/-- The events of a download attempt on `b` that is followed by another:
the download, the check, the deletion of the file. -/
def failedAttemptEvents (b : KubeBinary) : List Event :=
  [Event.localSh b.GetCmd, Event.localSh ("sha256sum " ++ b.Path),
   Event.localSh (rmCmd b.Path)]

/-- The events `es`, `k` times over. -/
def repeatEvents : Nat → List Event → List Event
  | 0, _ => []
  | k + 1, es => es ++ repeatEvents k es

/-- The line that `sha256sum path` prints for a file with the digest `digest`. -/
def sha256sumLine (digest path : String) : String :=
  digest ++ "  " ++ path ++ "\n"

/-- The command `cmd` leaves a file at `path`: it is a download to it
(`curl ... -o path  url`), or `path` is `dir/helm` and the command unpacks the
helm archive inside `dir` (`... && cd dir && tar ...`). -/
def createsFile (cmd path : String) : Bool :=
  strContains cmd ("-o " ++ path ++ " ")
    || ("/helm".data.isSuffixOf path.data
        && strContains cmd ("cd " ++ ⟨path.data.take (path.data.length - 5)⟩ ++ " && tar"))

/-- The file system of the sample installer machine, read off the history:
a file is at `path` when the last command that touched it created it and did
not delete it (`rm -f path`); before any such command, when it is among the
files present `initially`. -/
def sampleFileExists (initially : List String) (tr : List Event) (path : String) : Bool :=
  tr.foldl (fun present e =>
    match e with
    | Event.localSh cmd =>
      if createsFile cmd path then true
      else if cmd = rmCmd path then false
      else present
    | _ => present) (decide (path ∈ initially))

/-- The local shell of the sample installer machine: `sha256sum path` prints
the line for `digest` when the file is there and fails when it is not; every
other command succeeds silently. -/
def sampleSh (initially : List String) (digest : String) (tr : List Event) (cmd : String) :
    CmdResult :=
  if "sha256sum ".data.isPrefixOf cmd.data then
    if sampleFileExists initially tr ⟨cmd.data.drop 10⟩ then
      { output := sha256sumLine digest ⟨cmd.data.drop 10⟩, err := none }
    else
      { output := "sha256sum: " ++ ⟨cmd.data.drop 10⟩ ++ ": No such file or directory\n",
        err := some "exit status 1" }
  else { output := "", err := none }

/-- The sample installer machine: region hint `kkzone`, KubeSphere version
`ksVersion`, the files present `initially`, every file with the digest
`digest`, and `expected` as the checksum of every binary in the table. -/
def localWorld (kkzone ksVersion : String) (initially : List String)
    (digest expected : String) : Manager where
  env :=
    { executeCmd := fun _ _ _ _ => { output := "", err := none }
      sh := sampleSh initially digest
      isExist := sampleFileExists initially
      generateKubeadmCfg := fun _ => Except.ok ""
      createClusterDns := fun _ => none
      getenv := fun name => if name = "KKZONE" then kkzone else ""
      getSha256 := fun _ => expected
      base64Encode := fun s => s
      pathJoin := fun d n => d ++ "/" ++ n
      DefaultCniVersion := "v0.8.6"
      DefaultHelmVersion := "v3.2.1" }
  Index := 0
  WorkDir := "/root/kk"
  MasterNodes := []
  KubeSphereVersion := ksVersion

/-- The digest of a corrupt download. -/
def wrongDigest : String :=
  "e3b0c44298fc1c149afbf4c8996fb92427ae41e4649b934ca495991b7852b855"

/-- The checksum of the table. -/
def tableDigest : String :=
  "7bdaf0d58f0d286538376bc40b50d7e3ab60a3fe7a0709194f53f1605129550f"

/-- The directory of the binaries on the sample installer machine. -/
def sampleDir : String :=
  "/kk/kubekey/v1.21.0/amd64"

/-- The binary `kubeadm` as `FilesDownloadHttp` builds it on the sample
installer machine without a region hint. -/
def sampleKubeadm : KubeBinary :=
  { Name := "kubeadm", Arch := "amd64", Version := "v1.21.0",
    Url := "https://storage.googleapis.com/kubernetes-release/release/v1.21.0/bin/linux/amd64/kubeadm",
    Path := "/kk/kubekey/v1.21.0/amd64/kubeadm",
    GetCmd := "curl -L -o /kk/kubekey/v1.21.0/amd64/kubeadm  https://storage.googleapis.com/kubernetes-release/release/v1.21.0/bin/linux/amd64/kubeadm" }

/-- A directory whose name contains the checksum of the table. -/
def digestDir : String :=
  "/opt/" ++ tableDigest ++ "/kubekey/v1.21.0/amd64"

/-- The files of a complete installation in `sampleDir`: the five binaries of
the slice `binaries` and `helm2`. -/
def sampleInstalledFiles : List String :=
  [sampleDir ++ "/kubeadm", sampleDir ++ "/kubelet", sampleDir ++ "/kubectl",
   sampleDir ++ "/helm", sampleDir ++ "/cni-plugins-linux-amd64-v0.8.6.tgz",
   sampleDir ++ "/helm2"]

/-! ## Vocabulary of the node listing -/

/-- The command that creates a join token, as `getJoinCmd` issues it. -/
def tokenCreateCmd : String :=
  sudoSh "/usr/local/bin/kubeadm token create --print-join-command"

/-- The command that queries the node inventory, as `getJoinCmd` issues it. -/
def getNodesCmd : String :=
  "sudo -E /bin/sh -c \"/usr/local/bin/kubectl get nodes -o wide\""

/-- The command that reads the admin kubeconfig, as `getJoinCmd` issues it. -/
def kubeCfgBase64Cmd : String :=
  sudoSh "cat /etc/kubernetes/admin.conf | base64 --wrap=0"

/-- The commands of `PatchKubeadmSecret`, in order. -/
def patchEvents : List Event :=
  [Event.remote (patchSecretCmd "external-etcd-ca.crt"),
   Event.remote (patchSecretCmd "external-etcd.crt"),
   Event.remote (patchSecretCmd "external-etcd.key")]

/-- The history at which a successful `getJoinCmd` started from the history
`tr` queries the node inventory: after the upload, the three patches and the
token command. -/
def nodesQueryTrace (tr : List Event) : List Event :=
  tr ++ [Event.remote uploadCertsCmd] ++ patchEvents ++ [Event.remote tokenCreateCmd]

/-- The sample control-plane node, with `listing` as the answer to the node
query. -/
def listingMgr (listing : String) : Manager :=
  { sampleMgr sampleUploadOutput with
    env := { sampleEnv sampleUploadOutput with
      executeCmd := fun tr cmd retries printOutput =>
        if cmd = getNodesCmd then { output := listing, err := none }
        else sampleExecuteCmd sampleUploadOutput tr cmd retries printOutput } }

/-- The package-level variables of a state, without the history. -/
def globals (s : St) : Bool × GoMap × GoMap :=
  (s.clusterIsExist, s.allNodesName, s.clusterStatus)

/-- A control-plane node without the marker file: the probe prints
`Cluster will be created.`; every other command is answered as in the sample
world. -/
def absentProbeMgr : Manager :=
  { sampleMgr sampleUploadOutput with
    env := { sampleEnv sampleUploadOutput with
      executeCmd := fun tr cmd retries printOutput =>
        if cmd = probeCmd then { output := "Cluster will be created.\n", err := none }
        else sampleExecuteCmd sampleUploadOutput tr cmd retries printOutput } }

/-! ## Vocabulary of the command histories -/

/-- From the history `tr` to the history `tr'`, only events with the property
`P` were issued. -/
def issues (P : Event → Prop) (tr tr' : List Event) : Prop :=
  ∃ ext, tr' = tr ++ ext ∧ ∀ e ∈ ext, P e

/-- The event is neither the `kubeadm init` command nor the reset command. -/
def quietEvent (e : Event) : Prop :=
  e ≠ Event.remote kubeadmInitCmd ∧ e ≠ Event.remote resetCmd

/-- The command of `GetKubeConfig`. -/
def getKubeConfigCmd : String :=
  sudoSh ("mkdir -p /root/.kube && mkdir -p $HOME/.kube" ++ " && "
    ++ "cp -f /etc/kubernetes/admin.conf /root/.kube/config" ++ " && "
    ++ "cp -f /etc/kubernetes/admin.conf $HOME/.kube/config" ++ " && "
    ++ "chown $(id -u):$(id -g) $HOME/.kube/config")

/-- The command of `removeMasterTaint` for a node. -/
def taintCmd (node : HostCfg) : String :=
  "sudo -E /bin/sh -c \"/usr/local/bin/kubectl taint nodes "
    ++ node.Name ++ " node-role.kubernetes.io/master=:NoSchedule-\""

/-- The command of `addWorkerLabel` for a node. -/
def labelCmd (node : HostCfg) : String :=
  "sudo -E /bin/sh -c \"/usr/local/bin/kubectl label --overwrite node "
    ++ node.Name ++ " node-role.kubernetes.io/worker=\""

/-- The command with which `initKubernetesCluster` writes the kubeadm
configuration `cfg` (base64) to the node. -/
def writeCfgCmd (cfg : String) : String :=
  "sudo -E /bin/sh -c \"mkdir -p /etc/kubernetes && echo "
    ++ cfg ++ " | base64 -d > /etc/kubernetes/kubeadm-config.yaml\""

/-- The command with which `addWorker` creates the kubeconfig directories. -/
def mkdirKubeCmd : String :=
  sudoSh "mkdir -p /root/.kube && mkdir -p $HOME/.kube"

/-- The command with which `addWorker` writes the kubeconfig `kubeConfig`
(base64) to `/root/.kube/config`. -/
def syncRootCmd (kubeConfig : String) : String :=
  "sudo -E /bin/sh -c \"echo " ++ kubeConfig ++ " | base64 -d > " ++ "/root/.kube/config" ++ "\""

/-- The command with which `addWorker` writes the kubeconfig `kubeConfig`
(base64) to `$HOME/.kube/config`. -/
def syncUserCmd (kubeConfig : String) : String :=
  sudoSh ("echo " ++ kubeConfig ++ " | base64 -d > " ++ "$HOME/.kube/config" ++ " && "
    ++ "chown $(id -u):$(id -g) -R $HOME/.kube")

/-- The commands of `getJoinCmd`, in order. -/
def joinCmdEvents : List Event :=
  [Event.remote uploadCertsCmd] ++ patchEvents
    ++ [Event.remote tokenCreateCmd, Event.remote getNodesCmd, Event.remote kubeCfgBase64Cmd]

/-- The state `s` with the history `tr`. -/
def withTrace (s : St) (tr : List Event) : St :=
  { s with trace := tr }

/-- The history at the attempt number `k` (from 0) of a retry loop on `cmd`
entered at the history `tr`: every earlier attempt was followed by a reset. -/
def attemptTrace (tr : List Event) (cmd : String) (k : Nat) : List Event :=
  tr ++ repeatEvents k [Event.remote cmd, Event.remote resetCmd]

/-- The error of the attempt number `k` (from 0) of a retry loop on `cmd`
entered at the history `tr`; `none` when the attempt succeeds. -/
def attemptErr (mgr : Manager) (cmd : String) (tr : List Event) (k : Nat) : Option String :=
  (mgr.env.executeCmd (attemptTrace tr cmd k) cmd 0 true).err

/-- The first control-plane node of the sample world on which `kubeadm init`
fails the first `failures` times it is run and succeeds after that. -/
def retryMgr (failures : Nat) : Manager :=
  { sampleMgr sampleUploadOutput with
    env := { sampleEnv sampleUploadOutput with
      executeCmd := fun tr cmd retries printOutput =>
        if cmd = kubeadmInitCmd then
          (if tr.count (Event.remote kubeadmInitCmd) < failures then
            { output := "error execution phase preflight", err := some "exit status 1" }
          else { output := "", err := none })
        else sampleExecuteCmd sampleUploadOutput tr cmd retries printOutput } }

/-! ## Vocabulary of the join paths -/

/-- The stored master-join command, as `addMaster` runs it. -/
def joinMasterCmd (s : St) : String :=
  sudoSh (mapGet s.clusterStatus "joinMasterCmd")

/-- The stored worker-join command, as `addWorker` runs it. -/
def joinWorkerCmd (s : St) : String :=
  sudoSh (mapGet s.clusterStatus "joinWorkerCmd")

/-- The commands a master node may run in `joinNodesToCluster`. -/
def masterJoinEvents (s : St) (node : HostCfg) : List Event :=
  [Event.remote (joinMasterCmd s), Event.remote resetCmd, Event.remote getKubeConfigCmd,
   Event.remote (taintCmd node), Event.remote (labelCmd node)]

/-- The commands a worker-only node may run in `joinNodesToCluster`. -/
def workerJoinEvents (s : St) (node : HostCfg) : List Event :=
  [Event.remote (joinWorkerCmd s), Event.remote resetCmd, Event.remote mkdirKubeCmd,
   Event.remote (syncRootCmd (mapGet s.clusterStatus "kubeConfig")),
   Event.remote (syncUserCmd (mapGet s.clusterStatus "kubeConfig")),
   Event.remote (labelCmd node)]

/-- The join commands of the store are as `getJoinCmd` writes them: the
worker-join command is `/usr/local/bin/kubeadm join ` and a tail, the
master-join command is the worker-join command, the control-plane suffix and
a key. -/
def joinCmdsStored (s : St) : Prop :=
  ∃ tail key,
    mapGet s.clusterStatus "joinWorkerCmd" = "/usr/local/bin/kubeadm join " ++ tail
      ∧ mapGet s.clusterStatus "joinMasterCmd"
          = mapGet s.clusterStatus "joinWorkerCmd" ++ " --control-plane --certificate-key " ++ key

/-- A worker-only node that is not in the listing of the sample world. -/
def sampleWorker : HostCfg :=
  { Name := "node2", InternalAddress := "10.0.0.3", Arch := "amd64",
    IsEtcd := false, IsMaster := false, IsWorker := true }

/-! ## Lemmas on maps and on the state -/

theorem mapGet_mapSet_same (m : GoMap) (k v : String) : mapGet (mapSet m k v) k = v := by
  induction m with
  | nil => simp [mapSet, mapGet]
  | cons p rest ih =>
    obtain ⟨k', v'⟩ := p
    by_cases hk : k' = k
    · simp [mapSet, mapGet, hk]
    · simp [mapSet, mapGet, hk, ih]

theorem mapGet_mapSet_ne (m : GoMap) (k v j : String) (h : k ≠ j) :
    mapGet (mapSet m k v) j = mapGet m j := by
  induction m with
  | nil => simp [mapSet, mapGet, h]
  | cons p rest ih =>
    obtain ⟨k', v'⟩ := p
    by_cases hk : k' = k
    · subst hk
      simp [mapSet, mapGet, h]
    · by_cases hj : k' = j
      · subst hj
        simp [mapSet, mapGet, hk]
      · simp [mapSet, mapGet, hk, hj, ih]

theorem nodeNamesLoop_clusterStatus (rows : List String) (s : St) :
    (nodeNamesLoop rows s).2.clusterStatus = s.clusterStatus := by
  induction rows generalizing s with
  | nil => simp [nodeNamesLoop]
  | cons row rest ih =>
    simp only [nodeNamesLoop]
    split
    · rfl
    · rw [ih]

theorem recordNodeNames_clusterStatus (tmp : List String) (s : St) :
    (recordNodeNames tmp s).2.clusterStatus = s.clusterStatus := by
  unfold recordNodeNames
  split
  · exact nodeNamesLoop_clusterStatus tmp s
  · rfl

/-- When `getJoinCmd` succeeds, the pattern matched in the output of the
upload command, and the status map was written four times: worker-join
command, master-join command, cluster info, kubeconfig. -/
theorem getJoinCmd_ok_clusterStatus (mgr : Manager) (s s' : St)
    (h : getJoinCmd mgr s = (Outcome.ok, s')) :
    ∃ key rest base tail info cfg,
      FindAllString (mgr.env.executeCmd s.trace uploadCertsCmd 5 true).output = key :: rest
      ∧ s'.clusterStatus = mapSet (mapSet (mapSet (mapSet base "joinWorkerCmd"
          ("/usr/local/bin/kubeadm join " ++ tail)) "joinMasterCmd"
          (mapGet (mapSet base "joinWorkerCmd" ("/usr/local/bin/kubeadm join " ++ tail))
            "joinWorkerCmd" ++ " --control-plane --certificate-key " ++ key))
          "clusterInfo" info) "kubeConfig" cfg := by
  simp only [getJoinCmd] at h
  repeat' (split at h)
  all_goals try (simp at h; done)
  all_goals try (exfalso; apply_assumption; exact h)
  rename_i s5 hloop _ _
  have hkey := ‹FindAllString _ = _ :: _›
  have hcs := congrArg (fun p => p.2.clusterStatus) hloop
  simp only [recordNodeNames_clusterStatus] at hcs
  simp only [Prod.mk.injEq, true_and] at h
  subst h
  iterate 6 apply Exists.intro
  refine ⟨hkey, ?_⟩
  simp only [setStatus, ExecuteCmd, ← hcs]
  rfl

/-! ## Lemmas on the certificate-key pattern -/

theorem isLowerHex_keyClass (c : Char) (h : isLowerHex c = true) : keyClass c = true := by
  simp only [isLowerHex, keyClass, Bool.or_eq_true, Bool.and_eq_true, decide_eq_true_eq] at *
  have e1 : 'f'.toNat = 102 := by decide
  have e2 : 'z'.toNat = 122 := by decide
  have e3 : 'a'.toNat = 97 := by decide
  rcases h with h | h
  · left; left; exact h
  · right; omega

theorem matchHere_append_of_long (a b : List Char) (h : 64 ≤ a.length) :
    matchHere (a ++ b) = matchHere a := by
  simp only [matchHere, List.length_append]
  rw [List.take_append_of_le_length h]
  have : 64 ≤ a.length + b.length := by omega
  simp [h, this]

theorem matchHere_false_of_short (a b : List Char) (h : a.length < 64) (c : Char)
    (hc : c ∈ a) (hk : keyClass c = false) : matchHere (a ++ b) = false := by
  simp only [matchHere, Bool.and_eq_false_imp, decide_eq_true_eq]
  intro _
  rw [List.all_eq_false]
  refine ⟨c, ?_, by simp [hk]⟩
  rw [List.take_append_eq_append_take]
  apply List.mem_append_left
  rw [List.take_of_length_le (by omega)]
  exact hc

theorem findAllL_skip_unmatched (pre rest : List Char) (h1 : findAllL pre 0 = [])
    (h2 : ∀ c ∈ pre.getLast?, keyClass c = false) :
    findAllL (pre ++ rest) 0 = findAllL rest 0 := by
  induction pre with
  | nil => rfl
  | cons c cs ih =>
    simp only [findAllL] at h1
    split at h1
    · simp at h1
    · rename_i hm
      have hfalse : matchHere (c :: cs ++ rest) = false := by
        by_cases hlen : 64 ≤ (c :: cs).length
        · rw [matchHere_append_of_long _ _ hlen]
          simpa using hm
        · obtain ⟨d, hd⟩ : ∃ d, (c :: cs).getLast? = some d := by
            cases hcs : (c :: cs).getLast? with
            | none => simp at hcs
            | some d => exact ⟨d, rfl⟩
          exact matchHere_false_of_short _ _ (by omega) d (List.mem_of_getLast?_eq_some hd)
            (h2 d hd)
      have h2' : ∀ d ∈ cs.getLast?, keyClass d = false := by
        intro d hd
        exact h2 d (List.mem_getLast?_cons hd)
      simp only [List.cons_append, findAllL, List.append_eq] at hfalse ⊢
      rw [if_neg (by simp [hfalse])]
      exact ih h1 h2'

theorem findAllL_token (tok post : List Char) (hlen : tok.length = 64)
    (hall : ∀ c ∈ tok, keyClass c = true) :
    (findAllL (tok ++ post) 0).head? = some tok := by
  have hm : matchHere (tok ++ post) = true := by
    rw [matchHere_append_of_long _ _ (by omega)]
    simp only [matchHere, hlen, le_refl, decide_True, Bool.true_and]
    rw [List.take_of_length_le (by omega)]
    simpa [List.all_eq_true] using hall
  cases htok : tok with
  | nil => simp [htok] at hlen
  | cons c cs =>
    rw [htok] at hm
    subst htok
    simp only [List.cons_append, findAllL, List.append_eq] at hm ⊢
    rw [if_pos hm]
    simp only [List.head?_cons, Option.some.injEq]
    rw [← List.cons_append, List.take_append_of_le_length (by omega),
      List.take_of_length_le (by omega)]

theorem findAllL_mem (s : List Char) (skip : Nat) (m : List Char)
    (h : m ∈ findAllL s skip) : m.length = 64 ∧ ∀ c ∈ m, keyClass c = true := by
  induction s generalizing skip with
  | nil => simp [findAllL] at h
  | cons c cs ih =>
    cases skip with
    | succ k => exact ih k (by simpa [findAllL] using h)
    | zero =>
      simp only [findAllL] at h
      split at h
      · rename_i hm
        rcases List.mem_cons.mp h with h | h
        · subst h
          simp only [matchHere, Bool.and_eq_true, decide_eq_true_eq, List.all_eq_true] at hm
          exact ⟨by rw [List.length_take]; omega, hm.2⟩
        · exact ih 63 h
      · exact ih 0 h

/-! ## Frame lemmas: what the steps leave unchanged -/

theorem patchLoop_frame (mgr : Manager) (certs : List String) (s : St) :
    (patchLoop mgr certs s).2.clusterIsExist = s.clusterIsExist
      ∧ (patchLoop mgr certs s).2.allNodesName = s.allNodesName
      ∧ (patchLoop mgr certs s).2.clusterStatus = s.clusterStatus := by
  induction certs generalizing s with
  | nil => simp [patchLoop]
  | cons c cs ih =>
    simp only [patchLoop]
    split
    · simp [ExecuteCmd]
    · have := ih (ExecuteCmd mgr (patchSecretCmd c) 5 true s).2
      simpa [ExecuteCmd] using this

theorem nodeNamesLoop_clusterIsExist (rows : List String) (s : St) :
    (nodeNamesLoop rows s).2.clusterIsExist = s.clusterIsExist := by
  induction rows generalizing s with
  | nil => simp [nodeNamesLoop]
  | cons row rest ih =>
    simp only [nodeNamesLoop]
    split
    · rfl
    · rw [ih]

theorem recordNodeNames_clusterIsExist (tmp : List String) (s : St) :
    (recordNodeNames tmp s).2.clusterIsExist = s.clusterIsExist := by
  unfold recordNodeNames
  split
  · exact nodeNamesLoop_clusterIsExist tmp s
  · rfl

theorem PatchKubeadmSecret_of_eq (mgr : Manager) (s s1 : St) (o : Outcome)
    (h : PatchKubeadmSecret mgr s = (o, s1)) :
    s1.clusterIsExist = s.clusterIsExist ∧ s1.allNodesName = s.allNodesName
      ∧ s1.clusterStatus = s.clusterStatus := by
  have := patchLoop_frame mgr ["external-etcd-ca.crt", "external-etcd.crt", "external-etcd.key"] s
  unfold PatchKubeadmSecret at h
  rw [h] at this
  exact this

theorem recordNodeNames_of_eq (tmp : List String) (s s1 : St) (o : Outcome)
    (h : recordNodeNames tmp s = (o, s1)) : s1.clusterIsExist = s.clusterIsExist := by
  have := recordNodeNames_clusterIsExist tmp s
  rw [h] at this
  exact this

theorem getJoinCmd_clusterIsExist (mgr : Manager) (s : St) :
    (getJoinCmd mgr s).2.clusterIsExist = s.clusterIsExist := by
  simp only [getJoinCmd]
  repeat' split
  all_goals
    try have h1 := (PatchKubeadmSecret_of_eq _ _ _ _ ‹PatchKubeadmSecret _ _ = _›).1
  all_goals
    try have h2 := recordNodeNames_of_eq _ _ _ _ ‹recordNodeNames _ _ = _›
  all_goals
    simp_all [ExecuteCmd, setStatus, PatchKubeadmSecret, (patchLoop_frame _ _ _).1,
      recordNodeNames_clusterIsExist]

/-- When the upload command succeeds and the pattern has no match in its
output, `getJoinCmd` panics right after that command. -/
theorem getJoinCmd_panic_of_no_match (mgr : Manager) (s : St)
    (herr : (mgr.env.executeCmd s.trace uploadCertsCmd 5 true).err = none)
    (hno : FindAllString (mgr.env.executeCmd s.trace uploadCertsCmd 5 true).output = []) :
    getJoinCmd mgr s = (Outcome.panic "index out of range [0] with length 0",
      { s with trace := s.trace ++ [Event.remote uploadCertsCmd] }) := by
  simp only [uploadCertsCmd] at herr hno
  simp only [getJoinCmd, ExecuteCmd, herr, hno, uploadCertsCmd]

/-! ## Lemmas on the download pipeline -/

theorem SHA256Check_mismatch (env : Env) (b : KubeBinary) (version : String) (tr : List Event)
    (hsum : (env.sh tr ("sha256sum " ++ b.Path)).err = none)
    (hexp : strTrimSpace (env.getSha256 b) ≠ "")
    (hmis : strContains (strTrimSpace (env.sh tr ("sha256sum " ++ b.Path)).output)
      (env.getSha256 b) = false) :
    SHA256Check env b version tr
      = (Outcome.error (sha256MismatchError (env.getSha256 b)
          (strTrimSpace (env.sh tr ("sha256sum " ++ b.Path)).output)),
         tr ++ [Event.localSh ("sha256sum " ++ b.Path)]) := by
  simp [SHA256Check, localCommand, hsum, hexp, hmis]

theorem SHA256Check_noSha256 (env : Env) (b : KubeBinary) (version : String) (tr : List Event)
    (hsum : (env.sh tr ("sha256sum " ++ b.Path)).err = none)
    (hexp : strTrimSpace (env.getSha256 b) = "") :
    SHA256Check env b version tr
      = (Outcome.error (noSha256Error version),
         tr ++ [Event.localSh ("sha256sum " ++ b.Path)]) := by
  simp [SHA256Check, localCommand, hsum, hexp]

theorem downloadLoop_all_checks_fail (env : Env) (b : KubeBinary) (version : String)
    (e : Nat → String) (i : Nat) (tr : List Event)
    (h : ∀ k ≤ i,
      (env.sh (tr ++ repeatEvents k (failedAttemptEvents b)) b.GetCmd).err = none
      ∧ SHA256Check env b version
          (tr ++ repeatEvents k (failedAttemptEvents b) ++ [Event.localSh b.GetCmd])
        = (Outcome.error (e k), tr ++ repeatEvents k (failedAttemptEvents b) ++ attemptEvents b)) :
    downloadLoop env b version (i + 1) tr
      = (Outcome.error (e i), tr ++ repeatEvents i (failedAttemptEvents b) ++ attemptEvents b) := by
  induction i generalizing tr e with
  | zero =>
    have h0 := h 0 (le_refl 0)
    simp only [repeatEvents, List.append_nil] at h0
    simp [downloadLoop, localCommand, h0.1, h0.2, repeatEvents]
  | succ i ih =>
    have h0 := h 0 (Nat.zero_le _)
    simp only [repeatEvents, List.append_nil] at h0
    have hrec := ih (fun k => e (k + 1))
      (tr ++ failedAttemptEvents b) (by
        intro k hk
        have := h (k + 1) (by omega)
        simpa [repeatEvents, List.append_assoc] using this)
    rw [downloadLoop]
    simp only [localCommand, h0.1, h0.2]
    simp only [Nat.add_eq_right, Nat.add_eq_zero, one_ne_zero, and_false, if_false] 
    simp only [attemptEvents, failedAttemptEvents, List.append_assoc, List.cons_append,
      List.nil_append, repeatEvents] at hrec ⊢
    exact hrec

theorem binariesLoop_error_at (env : Env) (version : String) (pre post : List KubeBinary)
    (b : KubeBinary) (tr tr1 tr2 : List Event) (e : String)
    (hpre : binariesLoop env version pre tr = (Outcome.ok, tr1))
    (hbody : binaryLoopBody env version b tr1 = (Outcome.error e, tr2)) :
    binariesLoop env version (pre ++ b :: post) tr = (Outcome.error e, tr2) := by
  induction pre generalizing tr with
  | nil =>
    simp only [binariesLoop, Prod.mk.injEq, true_and] at hpre
    subst hpre
    simp [binariesLoop, hbody]
  | cons a rest ih =>
    simp only [binariesLoop] at hpre
    simp only [List.cons_append, binariesLoop]
    split at hpre
    · rename_i tr' heq
      exact ih tr' hpre
    · rename_i hne
      exact absurd hpre (hne tr1)

theorem FilesDownloadHttp_error_at (mgr : Manager) (filepath version arch : String)
    (pre post : List KubeBinary) (b : KubeBinary) (tr tr1 tr2 : List Event) (e : String)
    (hb : kubeBinaries mgr.env filepath version arch = pre ++ b :: post)
    (hpre : binariesLoop mgr.env version pre tr = (Outcome.ok, tr1))
    (hbody : binaryLoopBody mgr.env version b tr1 = (Outcome.error e, tr2)) :
    FilesDownloadHttp mgr filepath version arch tr = (Outcome.error e, tr2) := by
  simp [FilesDownloadHttp, hb, binariesLoop_error_at mgr.env version pre post b tr tr1 tr2 e hpre hbody]

theorem noSha256Error_ne_mismatch (version expected output : String) :
    noSha256Error version ≠ sha256MismatchError expected output := by
  intro h
  have h2 : (noSha256Error version).data.head?
      = (sha256MismatchError expected output).data.head? := congrArg (fun s => s.data.head?) h
  have h3 : some 'N' = some 'S' := h2
  exact absurd h3 (by decide)

/-! ## Lemmas on the node listing -/

theorem patchLoop_ok_trace (mgr : Manager) (certs : List String) (s s1 : St)
    (h : patchLoop mgr certs s = (Outcome.ok, s1)) :
    s1.trace = s.trace ++ certs.map (fun c => Event.remote (patchSecretCmd c)) := by
  induction certs generalizing s with
  | nil =>
    simp only [patchLoop, Prod.mk.injEq, true_and] at h
    simp [← h]
  | cons c cs ih =>
    simp only [patchLoop] at h
    split at h
    · simp at h
    · rw [ih _ h]
      simp [ExecuteCmd]

theorem mapHas_mapSet_same (m : GoMap) (k v : String) : mapHas (mapSet m k v) k = true := by
  induction m with
  | nil => simp [mapSet, mapHas]
  | cons p rest ih =>
    obtain ⟨k', v'⟩ := p
    by_cases hk : k' = k
    · simp [mapSet, mapHas, hk]
    · simp [mapSet, mapHas, hk, ih]

theorem mapHas_mapSet_of_mapHas (m : GoMap) (k v j : String) (h : mapHas m j = true) :
    mapHas (mapSet m k v) j = true := by
  induction m with
  | nil => simp [mapHas] at h
  | cons p rest ih =>
    obtain ⟨k', v'⟩ := p
    by_cases hk : k' = k
    · subst hk
      by_cases hj : k' = j
      · simp [mapSet, mapHas, hj]
      · simp only [mapHas, hj, if_false] at h
        simp [mapSet, mapHas, hj, h]
    · by_cases hj : k' = j
      · subst hj
        simp [mapSet, mapHas, hk]
      · simp only [mapHas, hj, if_false] at h
        simp [mapSet, mapHas, hk, hj, ih h]

theorem nodeNamesLoop_keeps (rows : List String) (s : St) (n : String)
    (h : mapHas s.allNodesName n = true) :
    mapHas (nodeNamesLoop rows s).2.allNodesName n = true := by
  induction rows generalizing s with
  | nil => simpa [nodeNamesLoop] using h
  | cons row rest ih =>
    simp only [nodeNamesLoop]
    split
    · exact h
    · exact ih _ (mapHas_mapSet_of_mapHas _ _ _ _ h)

theorem nodeNamesLoop_ok_names (rows : List String) (s s' : St)
    (h : nodeNamesLoop rows s = (Outcome.ok, s')) :
    ∀ row ∈ rows, ∃ name, (strFields row).head? = some name
      ∧ mapHas s'.allNodesName name = true := by
  induction rows generalizing s with
  | nil => simp
  | cons row rest ih =>
    simp only [nodeNamesLoop] at h
    split at h
    · simp at h
    · rename_i name others hf
      intro r hr
      rcases List.mem_cons.mp hr with rfl | hr
      · refine ⟨name, by simp [hf], ?_⟩
        have := nodeNamesLoop_keeps rest
          { s with allNodesName := mapSet s.allNodesName name name } name
          (mapHas_mapSet_same _ _ _)
        rw [h] at this
        exact this
      · exact ih _ h r hr

theorem nodeNamesLoop_total (rows : List String) (s : St)
    (h : ∀ row ∈ rows, strFields row ≠ []) : (nodeNamesLoop rows s).1 = Outcome.ok := by
  induction rows generalizing s with
  | nil => rfl
  | cons row rest ih =>
    simp only [nodeNamesLoop]
    split
    · rename_i hf
      exact absurd hf (h row (List.mem_cons_self _ _))
    · exact ih _ (fun r hr => h r (List.mem_cons_of_mem _ hr))

theorem nodeNamesLoop_trace (rows : List String) (s : St) :
    (nodeNamesLoop rows s).2.trace = s.trace := by
  induction rows generalizing s with
  | nil => rfl
  | cons row rest ih =>
    simp only [nodeNamesLoop]
    split
    · rfl
    · rw [ih]

theorem recordNodeNames_trace (tmp : List String) (s : St) :
    (recordNodeNames tmp s).2.trace = s.trace := by
  unfold recordNodeNames
  split
  · exact nodeNamesLoop_trace tmp s
  · rfl

/-- What a successful `getJoinCmd` went through. -/
theorem getJoinCmd_ok_inv (mgr : Manager) (s s' : St)
    (h : getJoinCmd mgr s = (Outcome.ok, s')) :
    ∃ (s4 s5 : St),
      s4.trace = nodesQueryTrace s.trace ++ [Event.remote getNodesCmd]
      ∧ s4.allNodesName = s.allNodesName
      ∧ mapGet s4.clusterStatus "clusterInfo"
          = (mgr.env.executeCmd (nodesQueryTrace s.trace) getNodesCmd 5 true).output
      ∧ recordNodeNames (strSplit (mapGet s4.clusterStatus "clusterInfo") "\r\n") s4
          = (Outcome.ok, s5)
      ∧ s' = setStatus (ExecuteCmd mgr kubeCfgBase64Cmd 1 false s5).2 "kubeConfig"
          (ExecuteCmd mgr kubeCfgBase64Cmd 1 false s5).1.output := by
  simp only [getJoinCmd] at h
  repeat' (split at h)
  all_goals try (simp at h; done)
  all_goals try (exfalso; apply_assumption; exact h)
  rename_i s5 hloop _ _
  have hpatch := ‹PatchKubeadmSecret _ _ = _›
  have htr := patchLoop_ok_trace _ _ _ _ hpatch
  have hfr := PatchKubeadmSecret_of_eq _ _ _ _ hpatch
  simp only [Prod.mk.injEq, true_and] at h
  refine ⟨_, s5, ?_, ?_, ?_, hloop, h.symm⟩
  · simp only [setStatus, ExecuteCmd, htr, nodesQueryTrace, patchEvents, uploadCertsCmd,
      tokenCreateCmd, getNodesCmd, List.map, List.append_assoc]
  · simp only [setStatus, ExecuteCmd, hfr.2.1]
  · simp only [setStatus, ExecuteCmd, mapGet_mapSet_same, htr, nodesQueryTrace, patchEvents,
      uploadCertsCmd, tokenCreateCmd, getNodesCmd, List.map, List.append_assoc]

/-! ## Frame lemmas: the steps that only issue commands -/

theorem globals_ExecuteCmd (mgr : Manager) (cmd : String) (n : Nat) (p : Bool) (s : St) :
    globals (ExecuteCmd mgr cmd n p s).2 = globals s := rfl

theorem globals_retryLoop (mgr : Manager) (cmd msg : String) (fuel i : Nat) (s : St) :
    globals (retryLoop mgr cmd msg fuel i s).2 = globals s := by
  induction fuel generalizing i s with
  | zero => rfl
  | succ fuel ih =>
    simp only [retryLoop]
    repeat' split
    all_goals first | rfl | (rw [ih]; rfl)

theorem globals_GetKubeConfig (mgr : Manager) (s : St) :
    globals (GetKubeConfig mgr s).2 = globals s := by
  simp only [GetKubeConfig]
  split <;> rfl

theorem globals_removeMasterTaint (mgr : Manager) (node : HostCfg) (s : St) :
    globals (removeMasterTaint mgr node s).2 = globals s := by
  simp only [removeMasterTaint]
  repeat' split
  all_goals rfl

theorem globals_addWorkerLabel (mgr : Manager) (node : HostCfg) (s : St) :
    globals (addWorkerLabel mgr node s).2 = globals s := by
  simp only [addWorkerLabel]
  split <;> rfl

theorem globals_addMaster (mgr : Manager) (s : St) :
    globals (addMaster mgr s).2 = globals s := by
  simp only [addMaster]
  split
  · rename_i s1 heq
    have e1 : s1 = (retryLoop mgr (sudoSh (mapGet s.clusterStatus "joinMasterCmd"))
      "Failed to add master to cluster" 3 0 s).2 := by rw [heq]
    rw [globals_GetKubeConfig, e1, globals_retryLoop]
  · exact globals_retryLoop _ _ _ _ _ _

theorem globals_addWorker (mgr : Manager) (s : St) :
    globals (addWorker mgr s).2 = globals s := by
  simp only [addWorker]
  split
  · rename_i s1 heq
    have e1 : globals s1 = globals s := by
      have := globals_retryLoop mgr (sudoSh (mapGet s.clusterStatus "joinWorkerCmd"))
        "Failed to add worker to cluster" 3 0 s
      rw [heq] at this
      exact this
    repeat' split
    all_goals exact e1
  · exact globals_retryLoop _ _ _ _ _ _

theorem globals_joinNodesToCluster (mgr : Manager) (node : HostCfg) (s : St) :
    globals (joinNodesToCluster mgr node s).2 = globals s := by
  have hm : globals (if node.IsMaster then
        (match addMaster mgr s with
         | (Outcome.ok, s1) =>
           match removeMasterTaint mgr node s1 with
           | (Outcome.ok, s2) => addWorkerLabel mgr node s2
           | other => other
         | other => other)
      else (Outcome.ok, s)).2 = globals s := by
    split
    · split
      · rename_i s1 heq
        have e1 : globals s1 = globals s := by
          have := globals_addMaster mgr s
          rw [heq] at this
          exact this
        split
        · rename_i s2 heq2
          have e2 : globals s2 = globals s1 := by
            have := globals_removeMasterTaint mgr node s1
            rw [heq2] at this
            exact this
          rw [globals_addWorkerLabel, e2, e1]
        · rw [globals_removeMasterTaint, e1]
      · exact globals_addMaster mgr s
    · rfl
  simp only [joinNodesToCluster]
  split
  · split
    · rename_i s3 heq
      have e3 : globals s3 = globals s :=
        (congrArg (fun x => globals x.2) heq).symm.trans hm
      split
      · split
        · rename_i s4 heq4
          have e4 : globals s4 = globals s3 := by
            have := globals_addWorker mgr s3
            rw [heq4] at this
            exact this
          rw [globals_addWorkerLabel, e4, e3]
        · rw [globals_addWorker, e3]
      · exact e3
    · exact hm
  · rfl

/-! ## Lemmas on the command histories -/

theorem issues_refl (P : Event → Prop) (tr : List Event) : issues P tr tr :=
  ⟨[], by simp, by simp⟩

theorem issues_trans {P : Event → Prop} {a b c : List Event}
    (h1 : issues P a b) (h2 : issues P b c) : issues P a c := by
  obtain ⟨e1, rfl, p1⟩ := h1
  obtain ⟨e2, rfl, p2⟩ := h2
  refine ⟨e1 ++ e2, by simp, ?_⟩
  intro e he
  rcases List.mem_append.mp he with h | h
  · exact p1 e h
  · exact p2 e h

theorem issues_mono {P Q : Event → Prop} {a b : List Event} (hPQ : ∀ e, P e → Q e)
    (h : issues P a b) : issues Q a b := by
  obtain ⟨e1, rfl, p1⟩ := h
  exact ⟨e1, rfl, fun e he => hPQ e (p1 e he)⟩

theorem issues_one {P : Event → Prop} (tr : List Event) (e : Event) (h : P e) :
    issues P tr (tr ++ [e]) :=
  ⟨[e], rfl, by simpa using h⟩

theorem issues_ExecuteCmd {P : Event → Prop} (mgr : Manager) (cmd : String) (n : Nat)
    (p : Bool) (s : St) (h : P (Event.remote cmd)) :
    issues P s.trace (ExecuteCmd mgr cmd n p s).2.trace :=
  issues_one s.trace _ h

theorem issues_of_eq {P : Event → Prop} {tr : List Event} {x : Outcome × St} {o : Outcome}
    {s1 : St} (h : x = (o, s1)) (hx : issues P tr x.2.trace) : issues P tr s1.trace := by
  subst h
  exact hx

theorem issues_retryLoop {P : Event → Prop} (mgr : Manager) (cmd msg : String)
    (hc : P (Event.remote cmd)) (hr : P (Event.remote resetCmd)) (fuel i : Nat) (s : St) :
    issues P s.trace (retryLoop mgr cmd msg fuel i s).2.trace := by
  induction fuel generalizing i s with
  | zero => exact issues_refl _ _
  | succ fuel ih =>
    simp only [retryLoop]
    split
    · refine issues_trans (issues_ExecuteCmd mgr cmd 0 true s hc) ?_
      split
      · split
        · exact issues_refl _ _
        · refine issues_trans (issues_ExecuteCmd mgr resetCmd 0 true _ hr) ?_
          exact ih _ _
      · exact issues_refl _ _
    · exact issues_refl _ _

theorem issues_GetKubeConfig {P : Event → Prop} (mgr : Manager) (s : St)
    (h : P (Event.remote getKubeConfigCmd)) :
    issues P s.trace (GetKubeConfig mgr s).2.trace := by
  simp only [GetKubeConfig]
  split <;> exact issues_ExecuteCmd mgr _ 2 false s h

theorem issues_removeMasterTaint {P : Event → Prop} (mgr : Manager) (node : HostCfg) (s : St)
    (h : P (Event.remote (taintCmd node))) :
    issues P s.trace (removeMasterTaint mgr node s).2.trace := by
  simp only [removeMasterTaint]
  split
  · split <;> exact issues_ExecuteCmd mgr _ 5 true s h
  · exact issues_refl _ _

theorem issues_addWorkerLabel {P : Event → Prop} (mgr : Manager) (node : HostCfg) (s : St)
    (h : P (Event.remote (labelCmd node))) :
    issues P s.trace (addWorkerLabel mgr node s).2.trace := by
  simp only [addWorkerLabel]
  split
  · exact issues_ExecuteCmd mgr _ 5 true s h
  · exact issues_refl _ _

theorem issues_patchLoop {P : Event → Prop} (mgr : Manager) (certs : List String) (s : St)
    (h : ∀ c ∈ certs, P (Event.remote (patchSecretCmd c))) :
    issues P s.trace (patchLoop mgr certs s).2.trace := by
  induction certs generalizing s with
  | nil => exact issues_refl _ _
  | cons c cs ih =>
    simp only [patchLoop]
    refine issues_trans (issues_ExecuteCmd mgr _ 5 true s (h c (List.mem_cons_self _ _))) ?_
    split
    · exact issues_refl _ _
    · exact ih _ (fun c' hc' => h c' (List.mem_cons_of_mem _ hc'))

theorem issues_CreateClusterDns {P : Event → Prop} (mgr : Manager) (s : St)
    (h : P Event.createClusterDns) :
    issues P s.trace (CreateClusterDns mgr s).2.trace := by
  simp only [CreateClusterDns]
  split <;> exact issues_one s.trace _ h

theorem issues_loadKubeConfig {P : Event → Prop} (mgr : Manager) (s : St)
    (h : ∀ c, P (Event.localSh c)) :
    issues P s.trace (loadKubeConfig mgr s).2.trace := by
  simp only [loadKubeConfig, onTrace, localCommand]
  repeat' split
  all_goals first
    | exact issues_one _ _ (h _)
    | exact issues_trans (issues_one _ _ (h _)) (issues_one _ _ (h _))

theorem issues_kubeadmCfgBase64 {P : Event → Prop} (mgr : Manager) (s : St)
    (h1 : ∀ c, P (Event.localSh c)) (h2 : P Event.generateKubeadmCfg) :
    issues P s.trace (kubeadmCfgBase64 mgr s).2.trace := by
  simp only [kubeadmCfgBase64, onTrace, localCommand]
  split
  · split <;> exact issues_one s.trace _ (h1 _)
  · split <;> exact issues_one s.trace _ h2

theorem issues_getJoinCmd {P : Event → Prop} (mgr : Manager) (s : St)
    (h : ∀ e ∈ joinCmdEvents, P e) :
    issues P s.trace (getJoinCmd mgr s).2.trace := by
  have hup : P (Event.remote uploadCertsCmd) := h _ (by simp [joinCmdEvents])
  have htok : P (Event.remote tokenCreateCmd) := h _ (by simp [joinCmdEvents])
  have hget : P (Event.remote getNodesCmd) := h _ (by simp [joinCmdEvents])
  have hcfg : P (Event.remote kubeCfgBase64Cmd) := h _ (by simp [joinCmdEvents])
  have hpatch : ∀ c ∈ ["external-etcd-ca.crt", "external-etcd.crt", "external-etcd.key"],
      P (Event.remote (patchSecretCmd c)) := by
    intro c hc
    apply h
    simp only [List.mem_cons, List.mem_singleton, List.not_mem_nil, or_false] at hc
    rcases hc with rfl | rfl | rfl <;> simp [joinCmdEvents, patchEvents]
  simp only [getJoinCmd]
  refine issues_trans (issues_ExecuteCmd mgr _ 5 true s hup) ?_
  split
  · exact issues_refl _ _
  · split
    · exact issues_refl _ _
    · split
      · rename_i s1 heq
        refine issues_trans (issues_of_eq heq (issues_patchLoop mgr _ _ hpatch)) ?_
        refine issues_trans (issues_ExecuteCmd mgr _ 5 true s1 htok) ?_
        split
        · exact issues_refl _ _
        · split
          · refine issues_trans (issues_ExecuteCmd mgr _ 5 true _ hget) ?_
            split
            · exact issues_refl _ _
            · split
              · rename_i s5 heq5
                have h5 := congrArg (fun x => x.2.trace) heq5
                simp only [recordNodeNames_trace] at h5
                refine issues_trans (b := s5.trace) ?_ ?_
                · rw [← h5]
                  exact issues_refl _ _
                · refine issues_trans (issues_ExecuteCmd mgr _ 1 false s5 hcfg) ?_
                  split <;> exact issues_refl _ _
              · rw [recordNodeNames_trace]
                exact issues_refl _ _
          · exact issues_refl _ _
      · exact issues_patchLoop mgr _ _ hpatch

theorem ne_of_char_ne (a b : String) (n : Nat)
    (h : (a.data.drop n).head? ≠ (b.data.drop n).head?) : a ≠ b := by
  intro hab
  exact h (by rw [hab])

theorem quietEvent_localSh (c : String) : quietEvent (Event.localSh c) := by
  constructor <;> intro h <;> cases h

theorem quietEvent_createClusterDns : quietEvent Event.createClusterDns := by
  constructor <;> intro h <;> cases h

theorem quietEvent_generateKubeadmCfg : quietEvent Event.generateKubeadmCfg := by
  constructor <;> intro h <;> cases h

theorem quietEvent_getKubeConfig : quietEvent (Event.remote getKubeConfigCmd) := by
  constructor <;> decide

theorem quietEvent_taint (node : HostCfg) : quietEvent (Event.remote (taintCmd node)) := by
  constructor
  · intro h
    have h1 : taintCmd node = kubeadmInitCmd := Event.remote.inj h
    have h2 : some 'c' = some 'a' := congrArg (fun x => (x.data.drop 39).head?) h1
    exact absurd h2 (by decide)
  · intro h
    have h1 : taintCmd node = resetCmd := Event.remote.inj h
    have h2 : some 'c' = some 'a' := congrArg (fun x => (x.data.drop 39).head?) h1
    exact absurd h2 (by decide)

theorem quietEvent_label (node : HostCfg) : quietEvent (Event.remote (labelCmd node)) := by
  constructor
  · intro h
    have h1 : labelCmd node = kubeadmInitCmd := Event.remote.inj h
    have h2 : some 'c' = some 'a' := congrArg (fun x => (x.data.drop 39).head?) h1
    exact absurd h2 (by decide)
  · intro h
    have h1 : labelCmd node = resetCmd := Event.remote.inj h
    have h2 : some 'c' = some 'a' := congrArg (fun x => (x.data.drop 39).head?) h1
    exact absurd h2 (by decide)

theorem quietEvent_writeCfg (cfg : String) : quietEvent (Event.remote (writeCfgCmd cfg)) := by
  constructor
  · intro h
    have h1 : writeCfgCmd cfg = kubeadmInitCmd := Event.remote.inj h
    have h2 : some 'm' = some '/' := congrArg (fun x => (x.data.drop 20).head?) h1
    exact absurd h2 (by decide)
  · intro h
    have h1 : writeCfgCmd cfg = resetCmd := Event.remote.inj h
    have h2 : some 'm' = some '/' := congrArg (fun x => (x.data.drop 20).head?) h1
    exact absurd h2 (by decide)

set_option maxRecDepth 100000 in
theorem quietEvent_joinCmd : ∀ e ∈ joinCmdEvents, quietEvent e := by
  intro e he
  simp only [joinCmdEvents, patchEvents, List.cons_append, List.nil_append, List.mem_cons,
    List.mem_singleton, List.not_mem_nil, or_false] at he
  rcases he with rfl | rfl | rfl | rfl | rfl | rfl | rfl <;> constructor <;> decide

theorem retryLoop_first_success (mgr : Manager) (cmd msg : String) (s : St) (k : Nat)
    (hk : k < 3) (hfail : ∀ j < k, attemptErr mgr cmd s.trace j ≠ none)
    (hok : attemptErr mgr cmd s.trace k = none) :
    retryLoop mgr cmd msg 3 0 s
      = (Outcome.ok, { s with trace := attemptTrace s.trace cmd k ++ [Event.remote cmd] }) := by
  have h0 := hfail 0
  have h1 := hfail 1
  simp only [attemptErr, attemptTrace, repeatEvents, List.append_nil] at h0 h1 hok
  interval_cases k
  · simp only [repeatEvents, List.append_nil] at hok
    simp [retryLoop, ExecuteCmd, hok, attemptTrace, repeatEvents]
  · have h0' := h0 (by omega)
    simp only [repeatEvents, List.append_nil] at hok
    cases he : (mgr.env.executeCmd s.trace cmd 0 true).err with
    | none => exact absurd he h0'
    | some e =>
      simp [retryLoop, ExecuteCmd, he, hok, attemptTrace, repeatEvents]
  · have h0' := h0 (by omega)
    have h1' := h1 (by omega)
    simp only [repeatEvents, List.append_nil] at hok
    cases he : (mgr.env.executeCmd s.trace cmd 0 true).err with
    | none => exact absurd he h0'
    | some e =>
      cases he2 : (mgr.env.executeCmd (s.trace ++ [Event.remote cmd, Event.remote resetCmd])
          cmd 0 true).err with
      | none => exact absurd he2 h1'
      | some e2 =>
        simp only [List.append_assoc, List.cons_append, List.nil_append] at hok
        simp [retryLoop, ExecuteCmd, he, he2, hok, attemptTrace, repeatEvents]

theorem retryLoop_all_fail (mgr : Manager) (cmd msg : String) (s : St) (e : String)
    (hfail : ∀ j < 2, attemptErr mgr cmd s.trace j ≠ none)
    (hlast : attemptErr mgr cmd s.trace 2 = some e) :
    retryLoop mgr cmd msg 3 0 s
      = (Outcome.error (wrap e msg),
         { s with trace := attemptTrace s.trace cmd 2 ++ [Event.remote cmd] }) := by
  have h0 := hfail 0 (by omega)
  have h1 := hfail 1 (by omega)
  simp only [attemptErr, attemptTrace, repeatEvents, List.append_nil] at h0 h1 hlast
  cases he : (mgr.env.executeCmd s.trace cmd 0 true).err with
  | none => exact absurd he h0
  | some e1 =>
    cases he2 : (mgr.env.executeCmd (s.trace ++ [Event.remote cmd, Event.remote resetCmd])
        cmd 0 true).err with
    | none => exact absurd he2 h1
    | some e2 =>
      simp only [List.append_assoc, List.cons_append, List.nil_append] at hlast
      simp [retryLoop, ExecuteCmd, he, he2, hlast, attemptTrace, repeatEvents]

theorem initKubernetesCluster_enters_loop (mgr : Manager) (node : HostCfg) (s s0 : St)
    (cfg : String) (hidx : mgr.Index = 0) (habs : s.clusterIsExist = false)
    (hcfg : kubeadmCfgBase64 mgr s = (Except.ok cfg, s0))
    (hwr : (mgr.env.executeCmd s0.trace (writeCfgCmd cfg) 1 false).err = none) :
    initKubernetesCluster mgr node s
      = match retryLoop mgr kubeadmInitCmd "Failed to init kubernetes cluster" 3 0
          (ExecuteCmd mgr (writeCfgCmd cfg) 1 false s0).2 with
        | (Outcome.ok, s2) =>
          match GetKubeConfig mgr s2 with
          | (Outcome.ok, s3) =>
            match removeMasterTaint mgr node s3 with
            | (Outcome.ok, s4) =>
              match addWorkerLabel mgr node s4 with
              | (Outcome.ok, s5) =>
                match CreateClusterDns mgr s5 with
                | (Outcome.ok, s6) =>
                  match getJoinNodesCmd mgr { s6 with clusterIsExist := true } with
                  | (Outcome.ok, s8) => loadKubeConfig mgr s8
                  | other => other
                | other => other
              | other => other
            | other => other
          | other => other
        | other => other := by
  simp only [writeCfgCmd] at hwr
  simp only [initKubernetesCluster, hidx, habs, and_self, if_true, hcfg, ExecuteCmd, hwr,
    writeCfgCmd, kubeadmInitCmd]

theorem initKubernetesCluster_after_loop (mgr : Manager) (node : HostCfg) (s s0 s2 : St)
    (cfg : String) (hidx : mgr.Index = 0) (habs : s.clusterIsExist = false)
    (hcfg : kubeadmCfgBase64 mgr s = (Except.ok cfg, s0))
    (hwr : (mgr.env.executeCmd s0.trace (writeCfgCmd cfg) 1 false).err = none)
    (hloop : retryLoop mgr kubeadmInitCmd "Failed to init kubernetes cluster" 3 0
      (ExecuteCmd mgr (writeCfgCmd cfg) 1 false s0).2 = (Outcome.ok, s2)) :
    issues quietEvent s2.trace (initKubernetesCluster mgr node s).2.trace := by
  rw [initKubernetesCluster_enters_loop mgr node s s0 cfg hidx habs hcfg hwr, hloop]
  simp only
  refine issues_trans (issues_GetKubeConfig mgr s2 quietEvent_getKubeConfig) ?_
  split
  · rename_i s3 h3
    rw [h3]
    simp only
    refine issues_trans (issues_removeMasterTaint mgr node s3 (quietEvent_taint node)) ?_
    split
    · rename_i s4 h4
      rw [h4]
      simp only
      refine issues_trans (issues_addWorkerLabel mgr node s4 (quietEvent_label node)) ?_
      split
      · rename_i s5 h5
        rw [h5]
        simp only
        refine issues_trans (issues_CreateClusterDns mgr s5 quietEvent_createClusterDns) ?_
        split
        · rename_i s6 h6
          rw [h6]
          simp only
          refine issues_trans (b := ({ s6 with clusterIsExist := true } : St).trace)
            (issues_refl _ _) ?_
          refine issues_trans (issues_getJoinCmd mgr _ quietEvent_joinCmd) ?_
          simp only [getJoinNodesCmd]
          split
          · rename_i s8 h8
            rw [h8]
            exact issues_loadKubeConfig mgr s8 quietEvent_localSh
          · exact issues_refl _ _
        · exact issues_refl _ _
      · exact issues_refl _ _
    · exact issues_refl _ _
  · exact issues_refl _ _

/-! ## Lemmas on the join paths -/

theorem issues_retryLoop_after_first {P : Event → Prop} (mgr : Manager) (cmd msg : String)
    (hc : P (Event.remote cmd)) (hr : P (Event.remote resetCmd)) (fuel : Nat) (s : St) :
    issues P (s.trace ++ [Event.remote cmd]) (retryLoop mgr cmd msg (fuel + 1) 0 s).2.trace := by
  simp only [retryLoop, Nat.ofNat_pos, if_true]
  split
  · simp only [OfNat.zero_ne_ofNat, if_false]
    refine issues_trans (issues_ExecuteCmd mgr resetCmd 0 true (ExecuteCmd mgr cmd 0 true s).2 hr) ?_
    exact issues_retryLoop mgr cmd msg hc hr _ _ _
  · exact issues_refl _ _

theorem joinNodesToCluster_master_eq (mgr : Manager) (node : HostCfg) (s : St)
    (hnew : ExistNodeName s node.Name = false) (hm : node.IsMaster = true) :
    joinNodesToCluster mgr node s
      = match addMaster mgr s with
        | (Outcome.ok, s1) =>
          match removeMasterTaint mgr node s1 with
          | (Outcome.ok, s2) => addWorkerLabel mgr node s2
          | other => other
        | other => other := by
  simp only [joinNodesToCluster, hnew, hm, Bool.not_false, Bool.not_true, Bool.and_false,
    if_true, Bool.false_eq_true, if_false]
  repeat' split
  all_goals simp_all

theorem joinNodesToCluster_worker_eq (mgr : Manager) (node : HostCfg) (s : St)
    (hnew : ExistNodeName s node.Name = false) (hm : node.IsMaster = false)
    (hw : node.IsWorker = true) :
    joinNodesToCluster mgr node s
      = match addWorker mgr s with
        | (Outcome.ok, s4) => addWorkerLabel mgr node s4
        | other => other := by
  simp only [joinNodesToCluster, hnew, hm, hw, Bool.not_false, Bool.and_true,
    if_true, Bool.false_eq_true, if_false]

theorem issues_master_path (mgr : Manager) (node : HostCfg) (s : St)
    (hnew : ExistNodeName s node.Name = false) (hm : node.IsMaster = true) :
    issues (fun e => e ∈ masterJoinEvents s node) (s.trace ++ [Event.remote (joinMasterCmd s)])
      (joinNodesToCluster mgr node s).2.trace := by
  have h1 : Event.remote (joinMasterCmd s) ∈ masterJoinEvents s node := by
    simp [masterJoinEvents]
  have h2 : Event.remote resetCmd ∈ masterJoinEvents s node := by simp [masterJoinEvents]
  have h3 : Event.remote getKubeConfigCmd ∈ masterJoinEvents s node := by
    simp [masterJoinEvents]
  have h4 : Event.remote (taintCmd node) ∈ masterJoinEvents s node := by
    simp [masterJoinEvents]
  have h5 : Event.remote (labelCmd node) ∈ masterJoinEvents s node := by
    simp [masterJoinEvents]
  rw [joinNodesToCluster_master_eq mgr node s hnew hm]
  have hloop := issues_retryLoop_after_first (P := fun e => e ∈ masterJoinEvents s node) mgr
    (joinMasterCmd s) "Failed to add master to cluster" h1 h2 2 s
  have hadd : issues (fun e => e ∈ masterJoinEvents s node)
      (s.trace ++ [Event.remote (joinMasterCmd s)]) (addMaster mgr s).2.trace := by
    simp only [addMaster]
    split
    · rename_i s1 heq
      refine issues_trans (issues_of_eq heq hloop) ?_
      exact issues_GetKubeConfig mgr s1 h3
    · exact hloop
  split
  · rename_i s1 heq
    refine issues_trans (issues_of_eq heq hadd) ?_
    refine issues_trans (issues_removeMasterTaint mgr node s1 h4) ?_
    split
    · rename_i s2 heq2
      rw [heq2]
      exact issues_addWorkerLabel mgr node s2 h5
    · exact issues_refl _ _
  · exact hadd

theorem sudoSh_join_chars (t : String) :
    ((sudoSh ("/usr/local/bin/kubeadm join " ++ t)).data.drop 20).head? = some '/'
      ∧ ((sudoSh ("/usr/local/bin/kubeadm join " ++ t)).data.drop 39).head? = some 'a'
      ∧ ((sudoSh ("/usr/local/bin/kubeadm join " ++ t)).data.drop 43).head? = some 'j' :=
  ⟨rfl, rfl, rfl⟩

theorem sudoSh_length (x : String) : (sudoSh x).length = x.length + 21 := by
  have h1 : "sudo -E /bin/sh -c \"".length = 20 := by decide
  have h2 : "\"".length = 1 := by decide
  simp only [sudoSh, String.length_append, h1, h2]
  omega

theorem sudoSh_join_ne (t : String) (node : HostCfg) (kc : String) :
    sudoSh ("/usr/local/bin/kubeadm join " ++ t) ≠ resetCmd
      ∧ sudoSh ("/usr/local/bin/kubeadm join " ++ t) ≠ getKubeConfigCmd
      ∧ sudoSh ("/usr/local/bin/kubeadm join " ++ t) ≠ taintCmd node
      ∧ sudoSh ("/usr/local/bin/kubeadm join " ++ t) ≠ labelCmd node
      ∧ sudoSh ("/usr/local/bin/kubeadm join " ++ t) ≠ mkdirKubeCmd
      ∧ sudoSh ("/usr/local/bin/kubeadm join " ++ t) ≠ syncRootCmd kc
      ∧ sudoSh ("/usr/local/bin/kubeadm join " ++ t) ≠ syncUserCmd kc := by
  obtain ⟨c20, c39, c43⟩ := sudoSh_join_chars t
  refine ⟨?_, ?_, ?_, ?_, ?_, ?_, ?_⟩
  · apply ne_of_char_ne _ _ 43
    rw [c43, show (resetCmd.data.drop 43).head? = some 'r' from rfl]
    decide
  · apply ne_of_char_ne _ _ 20
    rw [c20, show (getKubeConfigCmd.data.drop 20).head? = some 'm' from rfl]
    decide
  · apply ne_of_char_ne _ _ 39
    rw [c39, show ((taintCmd node).data.drop 39).head? = some 'c' from rfl]
    decide
  · apply ne_of_char_ne _ _ 39
    rw [c39, show ((labelCmd node).data.drop 39).head? = some 'c' from rfl]
    decide
  · apply ne_of_char_ne _ _ 20
    rw [c20, show (mkdirKubeCmd.data.drop 20).head? = some 'm' from rfl]
    decide
  · apply ne_of_char_ne _ _ 20
    rw [c20, show ((syncRootCmd kc).data.drop 20).head? = some 'e' from rfl]
    decide
  · apply ne_of_char_ne _ _ 20
    rw [c20, show ((syncUserCmd kc).data.drop 20).head? = some 'e' from rfl]
    decide

theorem join_cmds_distinct (s : St) (node : HostCfg) (h : joinCmdsStored s) :
    Event.remote (joinWorkerCmd s) ∉ masterJoinEvents s node
      ∧ Event.remote (joinMasterCmd s) ∉ workerJoinEvents s node := by
  obtain ⟨tail, key, hw, hm⟩ := h
  have hne : joinWorkerCmd s ≠ joinMasterCmd s := by
    intro heq
    have hl := congrArg String.length heq
    simp only [joinWorkerCmd, joinMasterCmd, sudoSh_length, hm, String.length_append] at hl
    have h35 : " --control-plane --certificate-key ".length = 35 := by decide
    rw [h35] at hl
    omega
  have hm' : mapGet s.clusterStatus "joinMasterCmd"
      = "/usr/local/bin/kubeadm join "
        ++ (tail ++ " --control-plane --certificate-key " ++ key) := by
    rw [hm, hw]
    simp only [String.append_assoc]
  obtain ⟨w1, w2, w3, w4, _, _, _⟩ :=
    sudoSh_join_ne tail node (mapGet s.clusterStatus "kubeConfig")
  obtain ⟨m1, _, _, m4, m5, m6, m7⟩ :=
    sudoSh_join_ne (tail ++ " --control-plane --certificate-key " ++ key) node
      (mapGet s.clusterStatus "kubeConfig")
  constructor
  · simp only [masterJoinEvents, List.mem_cons, List.mem_singleton, List.not_mem_nil,
      Event.remote.injEq, or_false, not_or]
    simp only [joinWorkerCmd, hw] at hne ⊢
    exact ⟨hne, w1, w2, w3, w4⟩
  · simp only [workerJoinEvents, List.mem_cons, List.mem_singleton, List.not_mem_nil,
      Event.remote.injEq, or_false, not_or]
    simp only [joinMasterCmd, hm'] at hne ⊢
    exact ⟨fun h => hne h.symm, m1, m5, m6, m7, m4⟩

theorem getJoinCmd_joinCmdsStored (mgr : Manager) (s s' : St)
    (h : getJoinCmd mgr s = (Outcome.ok, s')) : joinCmdsStored s' := by
  obtain ⟨key, rest, base, tail, info, cfg, _, hcs⟩ := getJoinCmd_ok_clusterStatus mgr s s' h
  refine ⟨tail, key, ?_, ?_⟩
  · rw [hcs, mapGet_mapSet_ne _ "kubeConfig" _ "joinWorkerCmd" (by decide),
      mapGet_mapSet_ne _ "clusterInfo" _ "joinWorkerCmd" (by decide),
      mapGet_mapSet_ne _ "joinMasterCmd" _ "joinWorkerCmd" (by decide),
      mapGet_mapSet_same]
  · rw [hcs, mapGet_mapSet_ne _ "kubeConfig" _ "joinMasterCmd" (by decide),
      mapGet_mapSet_ne _ "clusterInfo" _ "joinMasterCmd" (by decide),
      mapGet_mapSet_same _ "joinMasterCmd",
      mapGet_mapSet_ne _ "kubeConfig" _ "joinWorkerCmd" (by decide),
      mapGet_mapSet_ne _ "clusterInfo" _ "joinWorkerCmd" (by decide),
      mapGet_mapSet_ne _ "joinMasterCmd" _ "joinWorkerCmd" (by decide)]

theorem worker_join_success (mgr : Manager) (node : HostCfg) (s : St)
    (hnew : ExistNodeName s node.Name = false) (hm : node.IsMaster = false)
    (hw : node.IsWorker = true) (k : Nat) (hk : k < 3)
    (hfail : ∀ j < k, attemptErr mgr (joinWorkerCmd s) s.trace j ≠ none)
    (hok : attemptErr mgr (joinWorkerCmd s) s.trace k = none)
    (h1 : (mgr.env.executeCmd
      (attemptTrace s.trace (joinWorkerCmd s) k ++ [Event.remote (joinWorkerCmd s)])
      mkdirKubeCmd 1 false).err = none)
    (h2 : (mgr.env.executeCmd
      (attemptTrace s.trace (joinWorkerCmd s) k ++ [Event.remote (joinWorkerCmd s)]
        ++ [Event.remote mkdirKubeCmd])
      (syncRootCmd (mapGet s.clusterStatus "kubeConfig")) 1 false).err = none)
    (h3 : (mgr.env.executeCmd
      (attemptTrace s.trace (joinWorkerCmd s) k ++ [Event.remote (joinWorkerCmd s)]
        ++ [Event.remote mkdirKubeCmd,
            Event.remote (syncRootCmd (mapGet s.clusterStatus "kubeConfig"))])
      (syncUserCmd (mapGet s.clusterStatus "kubeConfig")) 1 false).err = none) :
    joinNodesToCluster mgr node s
      = (Outcome.ok, withTrace s
          (attemptTrace s.trace (joinWorkerCmd s) k ++ [Event.remote (joinWorkerCmd s)]
            ++ [Event.remote mkdirKubeCmd,
                Event.remote (syncRootCmd (mapGet s.clusterStatus "kubeConfig")),
                Event.remote (syncUserCmd (mapGet s.clusterStatus "kubeConfig")),
                Event.remote (labelCmd node)])) := by
  have hloop := retryLoop_first_success mgr (joinWorkerCmd s) "Failed to add worker to cluster"
    s k hk hfail hok
  simp only [joinWorkerCmd] at hloop h1 h2 h3
  simp only [mkdirKubeCmd] at h1
  simp only [syncRootCmd, mkdirKubeCmd, List.append_assoc, List.cons_append,
    List.nil_append] at h2
  simp only [syncRootCmd, syncUserCmd, mkdirKubeCmd, List.append_assoc, List.cons_append,
    List.nil_append] at h3
  rw [joinNodesToCluster_worker_eq mgr node s hnew hm hw]
  simp only [addWorker, hloop, ExecuteCmd, h1, List.append_assoc, List.cons_append,
    List.nil_append, h2, h3, addWorkerLabel, hw, if_true, withTrace, joinWorkerCmd,
    mkdirKubeCmd, syncRootCmd, syncUserCmd, labelCmd]

theorem addWorker_shape (mgr : Manager) (s : St) :
    ∃ loopPart post, (addWorker mgr s).2.trace
        = s.trace ++ Event.remote (joinWorkerCmd s) :: loopPart ++ post
      ∧ (∀ e ∈ loopPart, e = Event.remote (joinWorkerCmd s) ∨ e = Event.remote resetCmd)
      ∧ (((addWorker mgr s).1 = Outcome.ok
            ∧ post = [Event.remote mkdirKubeCmd,
                Event.remote (syncRootCmd (mapGet s.clusterStatus "kubeConfig")),
                Event.remote (syncUserCmd (mapGet s.clusterStatus "kubeConfig"))])
          ∨ ((addWorker mgr s).1 ≠ Outcome.ok
            ∧ post <+: [Event.remote mkdirKubeCmd,
                Event.remote (syncRootCmd (mapGet s.clusterStatus "kubeConfig")),
                Event.remote (syncUserCmd (mapGet s.clusterStatus "kubeConfig"))])) := by
  obtain ⟨lp, hlp, hall⟩ := issues_retryLoop_after_first
    (P := fun e => e = Event.remote (joinWorkerCmd s) ∨ e = Event.remote resetCmd) mgr
    (joinWorkerCmd s) "Failed to add worker to cluster" (Or.inl rfl) (Or.inr rfl) 2 s
  have hg := globals_retryLoop mgr (joinWorkerCmd s) "Failed to add worker to cluster" 3 0 s
  simp only [joinWorkerCmd] at hlp hg
  simp only [addWorker]
  cases hr : retryLoop mgr (sudoSh (mapGet s.clusterStatus "joinWorkerCmd"))
      "Failed to add worker to cluster" 3 0 s with
  | mk o s1 =>
    rw [hr] at hlp hg
    simp only [globals, Prod.mk.injEq] at hg
    simp only at hlp
    cases o with
    | ok =>
      simp only [hg.2.2]
      split
      · refine ⟨lp, [Event.remote mkdirKubeCmd], ?_, hall, Or.inr ⟨by simp, ⟨_, rfl⟩⟩⟩
        simp [ExecuteCmd, hlp, joinWorkerCmd, mkdirKubeCmd]
      · split
        · refine ⟨lp, [Event.remote mkdirKubeCmd,
            Event.remote (syncRootCmd (mapGet s.clusterStatus "kubeConfig"))], ?_, hall,
            Or.inr ⟨by simp, ⟨_, rfl⟩⟩⟩
          simp [ExecuteCmd, hlp, joinWorkerCmd, mkdirKubeCmd, syncRootCmd]
        · split
          · refine ⟨lp, [Event.remote mkdirKubeCmd,
              Event.remote (syncRootCmd (mapGet s.clusterStatus "kubeConfig")),
              Event.remote (syncUserCmd (mapGet s.clusterStatus "kubeConfig"))], ?_, hall,
              Or.inr ⟨by simp, ⟨[], rfl⟩⟩⟩
            simp [ExecuteCmd, hlp, joinWorkerCmd, mkdirKubeCmd, syncRootCmd, syncUserCmd]
          · refine ⟨lp, [Event.remote mkdirKubeCmd,
              Event.remote (syncRootCmd (mapGet s.clusterStatus "kubeConfig")),
              Event.remote (syncUserCmd (mapGet s.clusterStatus "kubeConfig"))], ?_, hall,
              Or.inl ⟨rfl, rfl⟩⟩
            simp [ExecuteCmd, hlp, joinWorkerCmd, mkdirKubeCmd, syncRootCmd, syncUserCmd]
    | error msg =>
      exact ⟨lp, [], by simp [hlp, joinWorkerCmd], hall, Or.inr ⟨by simp, List.nil_prefix⟩⟩
    | panic msg =>
      exact ⟨lp, [], by simp [hlp, joinWorkerCmd], hall, Or.inr ⟨by simp, List.nil_prefix⟩⟩

theorem worker_path_shape (mgr : Manager) (node : HostCfg) (s : St)
    (hnew : ExistNodeName s node.Name = false) (hm : node.IsMaster = false)
    (hw : node.IsWorker = true) :
    ∃ loopPart post, (joinNodesToCluster mgr node s).2.trace
        = s.trace ++ Event.remote (joinWorkerCmd s) :: loopPart ++ post
      ∧ (∀ e ∈ loopPart, e = Event.remote (joinWorkerCmd s) ∨ e = Event.remote resetCmd)
      ∧ post <+: [Event.remote mkdirKubeCmd,
          Event.remote (syncRootCmd (mapGet s.clusterStatus "kubeConfig")),
          Event.remote (syncUserCmd (mapGet s.clusterStatus "kubeConfig")),
          Event.remote (labelCmd node)] := by
  obtain ⟨lp, post, htr, hall, hcase⟩ := addWorker_shape mgr s
  rw [joinNodesToCluster_worker_eq mgr node s hnew hm hw]
  cases ha : addWorker mgr s with
  | mk o s4 =>
    rw [ha] at htr hcase
    simp only at htr hcase
    rcases hcase with ⟨hok, hpost⟩ | ⟨hne, hpre⟩
    · subst hok
      refine ⟨lp, post ++ [Event.remote (labelCmd node)], ?_, hall, ?_⟩
      · simp [addWorkerLabel, hw, ExecuteCmd, htr, labelCmd]
      · rw [hpost]
        exact ⟨[], rfl⟩
    · refine ⟨lp, post, ?_, hall, ?_⟩
      · cases o with
        | ok => exact absurd rfl hne
        | error msg => simpa using htr
        | panic msg => simpa using htr
      · exact hpre.trans ⟨[Event.remote (labelCmd node)], rfl⟩

/-! ## Theorems -/

/-- C1: when `getJoinCmd` succeeds, a certificate key was extracted from the
output of the upload command (the first match of the pattern), and the stored
master-join command is the stored worker-join command followed by
` --control-plane --certificate-key ` and that key. -/
theorem getJoinCmd_joinMasterCmd (mgr : Manager) (s s' : St)
    (h : getJoinCmd mgr s = (Outcome.ok, s')) :
    ∃ key, (FindAllString (mgr.env.executeCmd s.trace uploadCertsCmd 5 true).output).head? = some key
      ∧ mapGet s'.clusterStatus "joinMasterCmd"
          = mapGet s'.clusterStatus "joinWorkerCmd" ++ " --control-plane --certificate-key " ++ key := by
  obtain ⟨key, rest, base, tail, info, cfg, hkey, hcs⟩ := getJoinCmd_ok_clusterStatus mgr s s' h
  refine ⟨key, by simp [hkey], ?_⟩
  rw [hcs, mapGet_mapSet_ne _ "kubeConfig" _ "joinMasterCmd" (by decide),
    mapGet_mapSet_ne _ "clusterInfo" _ "joinMasterCmd" (by decide),
    mapGet_mapSet_same _ "joinMasterCmd",
    mapGet_mapSet_ne _ "kubeConfig" _ "joinWorkerCmd" (by decide),
    mapGet_mapSet_ne _ "clusterInfo" _ "joinWorkerCmd" (by decide),
    mapGet_mapSet_ne _ "joinMasterCmd" _ "joinWorkerCmd" (by decide)]

set_option maxRecDepth 100000 in
/-- C1, at the sample world: `getJoinCmd` succeeds there and the stored
master-join command is the worker-join command with the suffix and the key. -/
theorem getJoinCmd_joinMasterCmd_witness :
    getJoinCmd (sampleMgr sampleUploadOutput) initialState
        = (Outcome.ok, (getJoinCmd (sampleMgr sampleUploadOutput) initialState).2)
      ∧ ∃ key, (FindAllString (((sampleMgr sampleUploadOutput).env.executeCmd
            initialState.trace uploadCertsCmd 5 true).output)).head? = some key
          ∧ mapGet (getJoinCmd (sampleMgr sampleUploadOutput) initialState).2.clusterStatus
              "joinMasterCmd"
            = mapGet (getJoinCmd (sampleMgr sampleUploadOutput) initialState).2.clusterStatus
                "joinWorkerCmd" ++ " --control-plane --certificate-key " ++ key :=
  ⟨Prod.ext (by decide) rfl,
   getJoinCmd_joinMasterCmd (sampleMgr sampleUploadOutput) initialState _
     (Prod.ext (by decide) rfl)⟩

/-- C2 (amended): when the output of the upload command is a text `pre`, a
token of 64 lower-case hexadecimal digits and a text `post`, where the pattern
has no match inside `pre` and `pre` does not end in a character of the
pattern's class, the first match, which `getJoinCmd` takes as the certificate
key, is exactly the token; and every match of the pattern in any output is 64
characters long. -/
theorem certificateKey_first_match (pre tok post : String)
    (hlen : tok.length = 64) (hhex : ∀ c ∈ tok.data, isLowerHex c = true)
    (hpre : FindAllString pre = [])
    (hend : ∀ c ∈ pre.data.getLast?, keyClass c = false) :
    (FindAllString (pre ++ tok ++ post)).head? = some tok
      ∧ ∀ (out key : String), key ∈ FindAllString out → key.length = 64 := by
  constructor
  · have h1 : findAllL pre.data 0 = [] := by simpa [FindAllString] using hpre
    have h3 := findAllL_token tok.data post.data hlen
      (fun c hc => isLowerHex_keyClass c (hhex c hc))
    simp only [FindAllString, String.data_append, List.append_assoc, List.head?_map]
    rw [findAllL_skip_unmatched pre.data (tok.data ++ post.data) h1 hend, h3]
    rfl
  · intro out key hkey
    simp only [FindAllString, List.mem_map] at hkey
    obtain ⟨m, hm, rfl⟩ := hkey
    exact (findAllL_mem _ _ m hm).1

set_option maxRecDepth 100000 in
/-- C2 (amended), at the output `kubeadm` prints. -/
theorem certificateKey_first_match_witness :
    (FindAllString ("[upload-certs] Using certificate key:\n" ++ sampleKey ++ "\n")).head?
        = some sampleKey
      ∧ ∀ (out key : String), key ∈ FindAllString out → key.length = 64 :=
  certificateKey_first_match "[upload-certs] Using certificate key:\n" sampleKey "\n"
    (by decide) (by decide) (by decide) (by decide)

set_option maxRecDepth 100000 in
/-- C2 as stated fails: the output `longWord ++ " " ++ sampleKey` contains the
64-digit hexadecimal token `sampleKey`, yet the first match of the pattern is
`longWord`, which is not the token and has no hexadecimal digit; `getJoinCmd`
succeeds and stores a master-join command ending in `longWord`. -/
theorem certificateKey_counterexample :
    sampleKey.length = 64 ∧ (∀ c ∈ sampleKey.data, isHexDigit c = true)
      ∧ (FindAllString (longWord ++ " " ++ sampleKey)).head? = some longWord
      ∧ longWord ≠ sampleKey
      ∧ ¬ (∀ c ∈ longWord.data, isHexDigit c = true)
      ∧ getJoinCmd (sampleMgr (longWord ++ " " ++ sampleKey)) initialState
          = (Outcome.ok, (getJoinCmd (sampleMgr (longWord ++ " " ++ sampleKey)) initialState).2)
      ∧ mapGet (getJoinCmd (sampleMgr (longWord ++ " " ++ sampleKey)) initialState).2.clusterStatus
            "joinMasterCmd"
          = mapGet (getJoinCmd (sampleMgr (longWord ++ " " ++ sampleKey)) initialState).2.clusterStatus
              "joinWorkerCmd" ++ " --control-plane --certificate-key " ++ longWord := by
  refine ⟨by decide, by decide, by decide, by decide, by decide, Prod.ext (by decide) rfl, by decide⟩

set_option maxRecDepth 100000 in
/-- C3, at the failing input: the upload command succeeds with an output in
which the pattern has no match; `getJoinCmd` does not return an error, it
ends in the index-out-of-range panic of `FindAllString(output, -1)[0]`. -/
theorem getJoinCmd_no_match_panics :
    ((sampleMgr uploadOutputWithoutKey).env.executeCmd initialState.trace uploadCertsCmd 5 true).err
        = none
      ∧ FindAllString uploadOutputWithoutKey = []
      ∧ getJoinCmd (sampleMgr uploadOutputWithoutKey) initialState
        = (Outcome.panic "index out of range [0] with length 0",
            { initialState with trace := [Event.remote uploadCertsCmd] }) := by
  decide

/-- C4: for a node whose name is a key of `allNodesName`, whatever its role
flags, `joinNodesToCluster` returns `nil` and the state is the one it started
from: no command was issued (the trace is unchanged) and the status store is
unchanged. -/
theorem joinNodesToCluster_known_node (mgr : Manager) (node : HostCfg) (s : St)
    (h : mapHas s.allNodesName node.Name = true) :
    joinNodesToCluster mgr node s = (Outcome.ok, s) := by
  simp [joinNodesToCluster, ExistNodeName, h]

/-- C4, at a node that is both master and worker and is already known. -/
theorem joinNodesToCluster_known_node_witness :
    mapHas [("node1", "node1")] "node1" = true
      ∧ joinNodesToCluster (sampleMgr sampleUploadOutput)
          sampleNode
          { initialState with allNodesName := [("node1", "node1")] }
        = (Outcome.ok, { initialState with allNodesName := [("node1", "node1")] }) :=
  ⟨by decide, joinNodesToCluster_known_node _ _ _ (by decide)⟩

/-- C5: from a store whose cluster info is empty (as in the initial store),
if the probe returns without error and its output does not contain
`Cluster will be created`, then after `getClusterStatus` the flag
`clusterIsExist` is true, however the later steps of `getClusterStatus` end,
and `initKubernetesCluster` run from that state on any node returns `nil`
with the state unchanged: it issues no command, so no `kubeadm init`. -/
theorem getClusterStatus_exists_no_init (mgr : Manager) (node : HostCfg) (s : St)
    (hinfo : mapGet s.clusterStatus "clusterInfo" = "")
    (herr : (mgr.env.executeCmd s.trace probeCmd 0 true).err = none)
    (hmark : strContains (mgr.env.executeCmd s.trace probeCmd 0 true).output
      "Cluster will be created" = false) :
    (getClusterStatus mgr node s).2.clusterIsExist = true
      ∧ ∀ (mgr' : Manager) (node' : HostCfg),
          initKubernetesCluster mgr' node' (getClusterStatus mgr node s).2
            = (Outcome.ok, (getClusterStatus mgr node s).2) := by
  have hflag : (getClusterStatus mgr node s).2.clusterIsExist = true := by
    simp only [probeCmd] at herr hmark
    simp only [getClusterStatus, hinfo, if_true, ExecuteCmd, hmark, herr]
    simp only [Bool.false_eq_true, if_false]
    split
    · rfl
    · simp only [getJoinNodesCmd, getJoinCmd_clusterIsExist]
      split <;> rfl
  refine ⟨hflag, ?_⟩
  intro mgr' node'
  simp [initKubernetesCluster, hflag]

set_option maxRecDepth 100000 in
/-- C5, at the sample world, from the initial store. -/
theorem getClusterStatus_exists_no_init_witness :
    (getClusterStatus (sampleMgr sampleUploadOutput)
        sampleMaster initialState).2.clusterIsExist = true
      ∧ ∀ (mgr' : Manager) (node' : HostCfg),
          initKubernetesCluster mgr' node' (getClusterStatus (sampleMgr sampleUploadOutput)
            sampleMaster initialState).2
            = (Outcome.ok, (getClusterStatus (sampleMgr sampleUploadOutput)
            sampleMaster initialState).2) :=
  getClusterStatus_exists_no_init _ _ _ (by decide) (by decide) (by decide)

set_option maxRecDepth 100000 in
/-- C7, at the failing input: the file has the digest `wrongDigest`, the table
has `tableDigest`, and the directory of the file has the table's checksum in
its name; `sha256sum` prints the wrong digest followed by the path, and
`SHA256Check` returns success. -/
theorem SHA256Check_accepts_digest_in_path :
    wrongDigest ≠ tableDigest
      ∧ ((kubeBinaries (localWorld "" "" [digestDir ++ "/kubeadm"] wrongDigest tableDigest).env
            digestDir "v1.21.0" "amd64").head?.map (fun b => b.Path))
          = some (digestDir ++ "/kubeadm")
      ∧ ((localWorld "" "" [digestDir ++ "/kubeadm"] wrongDigest tableDigest).env.sh []
            ("sha256sum " ++ digestDir ++ "/kubeadm"))
          = { output := sha256sumLine wrongDigest (digestDir ++ "/kubeadm"), err := none }
      ∧ ((kubeBinaries (localWorld "" "" [digestDir ++ "/kubeadm"] wrongDigest tableDigest).env
            digestDir "v1.21.0" "amd64").head?.map (fun b =>
              SHA256Check (localWorld "" "" [digestDir ++ "/kubeadm"] wrongDigest tableDigest).env
                b "v1.21.0" []))
          = some (Outcome.ok, [Event.localSh ("sha256sum " ++ digestDir ++ "/kubeadm")]) := by
  decide

/-- C9 (amended): the slice `binaries` of `FilesDownloadHttp` holds the five
binaries `kubeadm, kubelet, kubectl, helm, kubecni`. For each of them, `b`,
that `FilesDownloadHttp` reaches (the binaries before it succeeded, with
history `tr1`) and whose target path exists then, if the check reports a
mismatch, `FilesDownloadHttp` returns the mismatch error and the only command
it issued after `tr1` is the `sha256sum` of the file: no download, no
deletion, no command for a later artifact. The optional `helm2` is not
verified: when the five binaries succeeded with history `tr1`, KubeSphere is
`v2.1.1` and the path of `helm2` exists, `FilesDownloadHttp` returns success
with the history `tr1`, without any command for `helm2`. -/
theorem FilesDownloadHttp_existing_mismatch (mgr : Manager) (filepath version arch : String) :
    (kubeBinaries mgr.env filepath version arch).map (fun b => b.Name)
        = ["kubeadm", "kubelet", "kubectl", "helm", "kubecni"]
      ∧ (∀ (pre post : List KubeBinary) (b : KubeBinary) (tr tr1 : List Event),
          kubeBinaries mgr.env filepath version arch = pre ++ b :: post →
          binariesLoop mgr.env version pre tr = (Outcome.ok, tr1) →
          mgr.env.isExist tr1 b.Path = true →
          (mgr.env.sh tr1 ("sha256sum " ++ b.Path)).err = none →
          strTrimSpace (mgr.env.getSha256 b) ≠ "" →
          strContains (strTrimSpace (mgr.env.sh tr1 ("sha256sum " ++ b.Path)).output)
            (mgr.env.getSha256 b) = false →
          FilesDownloadHttp mgr filepath version arch tr
            = (Outcome.error (sha256MismatchError (mgr.env.getSha256 b)
                (strTrimSpace (mgr.env.sh tr1 ("sha256sum " ++ b.Path)).output)),
               tr1 ++ [Event.localSh ("sha256sum " ++ b.Path)]))
      ∧ (∀ tr tr1 : List Event,
          binariesLoop mgr.env version (kubeBinaries mgr.env filepath version arch) tr
            = (Outcome.ok, tr1) →
          mgr.KubeSphereVersion = "v2.1.1" →
          mgr.env.isExist tr1 (filepath ++ "/helm2") = true →
          FilesDownloadHttp mgr filepath version arch tr = (Outcome.ok, tr1)) := by
  refine ⟨rfl, ?_, ?_⟩
  · intro pre post b tr tr1 hb hpre hold hsum hexp hmis
    apply FilesDownloadHttp_error_at mgr filepath version arch pre post b tr tr1 _ _ hb hpre
    simp only [binaryLoopBody, hold, Bool.true_eq_false, if_false]
    exact SHA256Check_mismatch mgr.env b version tr1 hsum hexp hmis
  · intro tr tr1 hloop hks hold
    simp [FilesDownloadHttp, hloop, hks, hold]

set_option maxRecDepth 100000 in
/-- C9 (amended), on the sample installer machine: with a corrupt `kubeadm`
in place, and with a complete installation in place and KubeSphere `v2.1.1`. -/
theorem FilesDownloadHttp_existing_mismatch_witness :
    FilesDownloadHttp (localWorld "" "" [sampleKubeadm.Path] wrongDigest tableDigest)
          sampleDir "v1.21.0" "amd64" []
        = (Outcome.error (sha256MismatchError tableDigest
            (wrongDigest ++ "  " ++ sampleKubeadm.Path)),
           [] ++ [Event.localSh ("sha256sum " ++ sampleKubeadm.Path)])
      ∧ FilesDownloadHttp (localWorld "" "v2.1.1" sampleInstalledFiles tableDigest tableDigest)
          sampleDir "v1.21.0" "amd64" []
        = (Outcome.ok,
           [Event.localSh ("sha256sum " ++ sampleDir ++ "/kubeadm"),
            Event.localSh ("sha256sum " ++ sampleDir ++ "/kubelet"),
            Event.localSh ("sha256sum " ++ sampleDir ++ "/kubectl"),
            Event.localSh ("sha256sum " ++ sampleDir ++ "/helm"),
            Event.localSh ("sha256sum " ++ sampleDir ++ "/cni-plugins-linux-amd64-v0.8.6.tgz")]) :=
  ⟨(FilesDownloadHttp_existing_mismatch
      (localWorld "" "" [sampleKubeadm.Path] wrongDigest tableDigest)
      sampleDir "v1.21.0" "amd64").2.1 []
      (kubeBinaries (localWorld "" "" [sampleKubeadm.Path] wrongDigest tableDigest).env sampleDir
        "v1.21.0" "amd64").tail
      sampleKubeadm [] [] (by decide) rfl (by decide) (by decide) (by decide) (by decide),
   (FilesDownloadHttp_existing_mismatch
      (localWorld "" "v2.1.1" sampleInstalledFiles tableDigest tableDigest)
      sampleDir "v1.21.0" "amd64").2.2 [] _ (by decide) (by decide) (by decide)⟩

set_option maxRecDepth 100000 in
/-- C9 as stated fails for the artifact `helm2`: with KubeSphere `v2.1.1` and
a complete installation in place, `FilesDownloadHttp` reaches `helm2`, whose
path exists, and returns success after the `sha256sum` commands of the five
binaries; it issues no `sha256sum` command for `helm2`, so the file is not
verified. -/
theorem existing_helm2_not_verified :
    (localWorld "" "v2.1.1" sampleInstalledFiles tableDigest tableDigest).KubeSphereVersion
        = "v2.1.1"
      ∧ FilesDownloadHttp (localWorld "" "v2.1.1" sampleInstalledFiles tableDigest tableDigest)
          sampleDir "v1.21.0" "amd64" []
        = (Outcome.ok,
           [Event.localSh ("sha256sum " ++ sampleDir ++ "/kubeadm"),
            Event.localSh ("sha256sum " ++ sampleDir ++ "/kubelet"),
            Event.localSh ("sha256sum " ++ sampleDir ++ "/kubectl"),
            Event.localSh ("sha256sum " ++ sampleDir ++ "/helm"),
            Event.localSh ("sha256sum " ++ sampleDir ++ "/cni-plugins-linux-amd64-v0.8.6.tgz")])
      ∧ (localWorld "" "v2.1.1" sampleInstalledFiles tableDigest tableDigest).env.isExist
          (FilesDownloadHttp (localWorld "" "v2.1.1" sampleInstalledFiles tableDigest tableDigest)
            sampleDir "v1.21.0" "amd64" []).2 (sampleDir ++ "/helm2") = true
      ∧ Event.localSh ("sha256sum " ++ sampleDir ++ "/helm2")
          ∉ (FilesDownloadHttp (localWorld "" "v2.1.1" sampleInstalledFiles tableDigest tableDigest)
              sampleDir "v1.21.0" "amd64" []).2 := by
  decide

/-- C10 (amended): for an artifact `b` that `FilesDownloadHttp` reaches and
whose checksum is missing from the table (`GetSha256` is empty or blank), with
`sha256sum` itself succeeding: when the target path exists,
`FilesDownloadHttp` returns the `No SHA256 found` error at once, after the one
`sha256sum` command; when it does not exist and the downloads succeed, the
error is handled like a mismatch: four times download, check, delete, then a
fifth download and check, and the error is returned. The error differs from
every checksum-mismatch error. -/
theorem FilesDownloadHttp_no_checksum (mgr : Manager) (filepath version arch : String)
    (pre post : List KubeBinary) (b : KubeBinary) (tr tr1 : List Event)
    (hb : kubeBinaries mgr.env filepath version arch = pre ++ b :: post)
    (hpre : binariesLoop mgr.env version pre tr = (Outcome.ok, tr1))
    (hexp : strTrimSpace (mgr.env.getSha256 b) = "") :
    (mgr.env.isExist tr1 b.Path = true →
        (mgr.env.sh tr1 ("sha256sum " ++ b.Path)).err = none →
        FilesDownloadHttp mgr filepath version arch tr
          = (Outcome.error (noSha256Error version),
             tr1 ++ [Event.localSh ("sha256sum " ++ b.Path)]))
      ∧ (mgr.env.isExist tr1 b.Path = false →
        (∀ k ≤ 4,
          (mgr.env.sh (tr1 ++ repeatEvents k (failedAttemptEvents b)) b.GetCmd).err = none
          ∧ (mgr.env.sh (tr1 ++ repeatEvents k (failedAttemptEvents b)
              ++ [Event.localSh b.GetCmd]) ("sha256sum " ++ b.Path)).err = none) →
        FilesDownloadHttp mgr filepath version arch tr
          = (Outcome.error (noSha256Error version),
             tr1 ++ repeatEvents 4 (failedAttemptEvents b) ++ attemptEvents b))
      ∧ ∀ expected output : String,
          noSha256Error version ≠ sha256MismatchError expected output := by
  refine ⟨?_, ?_, fun expected output => noSha256Error_ne_mismatch version expected output⟩
  · intro hold hsum
    apply FilesDownloadHttp_error_at mgr filepath version arch pre post b tr tr1 _ _ hb hpre
    simp only [binaryLoopBody, hold, Bool.true_eq_false, if_false]
    exact SHA256Check_noSha256 mgr.env b version tr1 hsum hexp
  · intro hnew hatt
    apply FilesDownloadHttp_error_at mgr filepath version arch pre post b tr tr1 _ _ hb hpre
    simp only [binaryLoopBody, hnew, if_true]
    exact downloadLoop_all_checks_fail mgr.env b version (fun _ => noSha256Error version) 4 tr1
      (by
        intro k hk
        obtain ⟨h1, h2⟩ := hatt k hk
        refine ⟨h1, ?_⟩
        rw [SHA256Check_noSha256 mgr.env b version _ h2 hexp]
        simp [attemptEvents])

set_option maxRecDepth 100000 in
/-- C10 (amended), on the sample installer machine with an empty table, on the
fresh-download path. -/
theorem FilesDownloadHttp_no_checksum_witness :
    FilesDownloadHttp (localWorld "" "" [] tableDigest "") sampleDir "v1.21.0" "amd64" []
      = (Outcome.error (noSha256Error "v1.21.0"),
         [] ++ repeatEvents 4 (failedAttemptEvents sampleKubeadm) ++ attemptEvents sampleKubeadm) :=
  (FilesDownloadHttp_no_checksum (localWorld "" "" [] tableDigest "")
    sampleDir "v1.21.0" "amd64" []
    (kubeBinaries (localWorld "" "" [] tableDigest "").env sampleDir "v1.21.0" "amd64").tail
    sampleKubeadm [] [] (by decide) rfl (by decide)).2.1 (by decide) (by decide)

set_option maxRecDepth 100000 in
/-- C10 as stated fails: with no checksum in the table and no file at the
target path, `FilesDownloadHttp` returns the `No SHA256 found` error only after
running the download command 5 times and deleting the file 4 times. -/
theorem missing_checksum_download_retried :
    strTrimSpace ((localWorld "" "" [] tableDigest "").env.getSha256 sampleKubeadm) = ""
      ∧ (localWorld "" "" [] tableDigest "").env.isExist [] sampleKubeadm.Path = false
      ∧ (FilesDownloadHttp (localWorld "" "" [] tableDigest "") sampleDir "v1.21.0" "amd64" []).1
        = Outcome.error "No SHA256 found for v1.21.0. v1.21.0 is not supported."
      ∧ (FilesDownloadHttp (localWorld "" "" [] tableDigest "") sampleDir "v1.21.0"
          "amd64" []).2.count (Event.localSh sampleKubeadm.GetCmd) = 5
      ∧ (FilesDownloadHttp (localWorld "" "" [] tableDigest "") sampleDir "v1.21.0"
          "amd64" []).2.count (Event.localSh (rmCmd sampleKubeadm.Path)) = 4 := by
  decide

/-- C11 (amended): when `getJoinCmd` succeeds, the raw listing returned by
the node query is stored under `clusterInfo`; when the listing splits on
`\r\n` into at least two rows, `allNodesName` has the first field of every
one of these rows as a key; when it does not (no `\r\n` in it), no name is
recorded; and recording the names of rows that each have a field does not
fail. -/
theorem getJoinCmd_node_names (mgr : Manager) (s s' : St)
    (h : getJoinCmd mgr s = (Outcome.ok, s')) :
    mapGet s'.clusterStatus "clusterInfo"
        = (mgr.env.executeCmd (nodesQueryTrace s.trace) getNodesCmd 5 true).output
      ∧ (1 < (strSplit (mgr.env.executeCmd (nodesQueryTrace s.trace) getNodesCmd 5 true).output
              "\r\n").length →
          ∀ row ∈ strSplit (mgr.env.executeCmd (nodesQueryTrace s.trace) getNodesCmd 5 true).output
              "\r\n",
            ∃ name, (strFields row).head? = some name ∧ mapHas s'.allNodesName name = true)
      ∧ ((strSplit (mgr.env.executeCmd (nodesQueryTrace s.trace) getNodesCmd 5 true).output
              "\r\n").length ≤ 1 →
          s'.allNodesName = s.allNodesName)
      ∧ ∀ (rows : List String) (st : St), (∀ row ∈ rows, strFields row ≠ []) →
          (recordNodeNames rows st).1 = Outcome.ok := by
  obtain ⟨s4, s5, _, hnames, hinfo, hrec, hs'⟩ := getJoinCmd_ok_inv mgr s s' h
  have hcs5 : s5.clusterStatus = s4.clusterStatus := by
    have := recordNodeNames_clusterStatus
      (strSplit (mapGet s4.clusterStatus "clusterInfo") "\r\n") s4
    rw [hrec] at this
    exact this
  rw [hinfo] at hrec
  refine ⟨?_, ?_, ?_, ?_⟩
  · rw [hs']
    simp only [setStatus, ExecuteCmd]
    rw [mapGet_mapSet_ne _ "kubeConfig" _ "clusterInfo" (by decide), hcs5, hinfo]
  · intro hlen row hrow
    simp only [recordNodeNames, hlen, gt_iff_lt, if_true] at hrec
    obtain ⟨name, h1, h2⟩ := nodeNamesLoop_ok_names _ _ _ hrec row hrow
    exact ⟨name, h1, by rw [hs']; simpa [setStatus, ExecuteCmd] using h2⟩
  · intro hlen
    have hlen' : ¬ 1 < (strSplit (mgr.env.executeCmd (nodesQueryTrace s.trace) getNodesCmd 5
        true).output "\r\n").length := by omega
    simp only [recordNodeNames, gt_iff_lt, hlen', if_false, Prod.mk.injEq, true_and] at hrec
    rw [hs', ← hrec]
    simpa [setStatus, ExecuteCmd] using hnames
  · intro rows st hrows
    unfold recordNodeNames
    split
    · exact nodeNamesLoop_total rows st hrows
    · rfl

set_option maxRecDepth 100000 in
/-- C11 (amended), at a listing of three rows separated by `\r\n`. -/
theorem getJoinCmd_node_names_witness :
    mapGet (getJoinCmd (listingMgr "NAME STATUS\r\nmaster1 Ready\r\nnode2 Ready")
        initialState).2.clusterStatus "clusterInfo"
      = "NAME STATUS\r\nmaster1 Ready\r\nnode2 Ready"
    ∧ ∀ row ∈ ["NAME STATUS", "master1 Ready", "node2 Ready"],
        ∃ name, (strFields row).head? = some name
          ∧ mapHas (getJoinCmd (listingMgr "NAME STATUS\r\nmaster1 Ready\r\nnode2 Ready")
              initialState).2.allNodesName name = true :=
  ⟨(getJoinCmd_node_names (listingMgr "NAME STATUS\r\nmaster1 Ready\r\nnode2 Ready")
      initialState _ (Prod.ext (by decide) rfl)).1,
   (getJoinCmd_node_names (listingMgr "NAME STATUS\r\nmaster1 Ready\r\nnode2 Ready")
      initialState _ (Prod.ext (by decide) rfl)).2.1 (by decide)⟩

set_option maxRecDepth 100000 in
/-- C11 as stated fails: for a listing whose rows end in `\n`, `getJoinCmd`
succeeds and stores the listing, but records no name, so the first field
`master1` of the row `master1 Ready` is not in `allNodesName`; and for a
listing whose rows end in `\r\n`, the empty piece after the last terminator
makes `getJoinCmd` panic. -/
theorem node_listing_counterexample :
    (getJoinCmd (listingMgr "NAME STATUS\nmaster1 Ready\n") initialState).1 = Outcome.ok
      ∧ mapGet (getJoinCmd (listingMgr "NAME STATUS\nmaster1 Ready\n")
          initialState).2.clusterStatus "clusterInfo" = "NAME STATUS\nmaster1 Ready\n"
      ∧ (strFields "master1 Ready").head? = some "master1"
      ∧ mapHas (getJoinCmd (listingMgr "NAME STATUS\nmaster1 Ready\n")
          initialState).2.allNodesName "master1" = false
      ∧ (getJoinCmd (listingMgr "NAME STATUS\nmaster1 Ready\n") initialState).2.allNodesName = []
      ∧ (getJoinCmd (listingMgr "NAME STATUS\r\nmaster1 Ready\r\n") initialState).1
          = Outcome.panic "index out of range [0] with length 0" := by
  decide

/-- C12 (amended): from a state in which `clusterIsExist` is true, on any
node and with any command results, `initKubernetesCluster` does nothing,
`joinNodesToCluster` leaves the flag true, and `getClusterStatus` leaves it
true when the store already holds a cluster info (it then does nothing) or
when the probe output does not contain `Cluster will be created`; when the
cluster info is empty and the probe output contains `Cluster will be created`,
`getClusterStatus` sets the flag to false. -/
theorem exists_flag_kept (mgr : Manager) (node : HostCfg) (s : St)
    (h : s.clusterIsExist = true) :
    initKubernetesCluster mgr node s = (Outcome.ok, s)
      ∧ (joinNodesToCluster mgr node s).2.clusterIsExist = true
      ∧ (mapGet s.clusterStatus "clusterInfo" ≠ "" → getClusterStatus mgr node s = (Outcome.ok, s))
      ∧ (strContains (mgr.env.executeCmd s.trace probeCmd 0 true).output
            "Cluster will be created" = false →
          (getClusterStatus mgr node s).2.clusterIsExist = true)
      ∧ (mapGet s.clusterStatus "clusterInfo" = "" →
          strContains (mgr.env.executeCmd s.trace probeCmd 0 true).output
            "Cluster will be created" = true →
          (getClusterStatus mgr node s).2.clusterIsExist = false) := by
  refine ⟨?_, ?_, ?_, ?_, ?_⟩
  · simp [initKubernetesCluster, h]
  · have := congrArg (fun g => g.1) (globals_joinNodesToCluster mgr node s)
    simp only [globals] at this
    rw [this, h]
  · intro hinfo
    simp [getClusterStatus, hinfo]
  · intro hmark
    simp only [probeCmd] at hmark
    simp only [getClusterStatus]
    split
    · simp only [ExecuteCmd, hmark, Bool.false_eq_true, if_false]
      split
      · exact h
      · split
        · rfl
        · simp only [getJoinNodesCmd, getJoinCmd_clusterIsExist]
          split <;> rfl
    · exact h
  · intro hinfo hmark
    simp only [probeCmd] at hmark
    simp [getClusterStatus, hinfo, ExecuteCmd, hmark]

set_option maxRecDepth 100000 in
/-- C12 (amended), at the state the sample world reaches by detection. -/
theorem exists_flag_kept_witness :
    (joinNodesToCluster (sampleMgr sampleUploadOutput) sampleNode
        (getClusterStatus (sampleMgr sampleUploadOutput) sampleMaster initialState).2).2.clusterIsExist
      = true :=
  (exists_flag_kept (sampleMgr sampleUploadOutput) sampleNode
    (getClusterStatus (sampleMgr sampleUploadOutput) sampleMaster initialState).2
    (by decide)).2.1

set_option maxRecDepth 100000 in
/-- C12 as stated fails: from the initial store, `getClusterStatus` on a
master with the marker file and an empty node listing succeeds and sets the
flag to true with the cluster info still empty; `getClusterStatus` on the
next node, whose probe prints `Cluster will be created.`, then succeeds and
sets the flag to false. The same happens from any state with the flag true
and an empty cluster info. -/
theorem exists_flag_reverts :
    getClusterStatus (listingMgr "") sampleMaster initialState
        = (Outcome.ok, (getClusterStatus (listingMgr "") sampleMaster initialState).2)
      ∧ (getClusterStatus (listingMgr "") sampleMaster initialState).2.clusterIsExist = true
      ∧ getClusterStatus absentProbeMgr sampleNode
          (getClusterStatus (listingMgr "") sampleMaster initialState).2
        = (Outcome.ok, (getClusterStatus absentProbeMgr sampleNode
            (getClusterStatus (listingMgr "") sampleMaster initialState).2).2)
      ∧ (getClusterStatus absentProbeMgr sampleNode
          (getClusterStatus (listingMgr "") sampleMaster initialState).2).2.clusterIsExist
        = false
      ∧ (getClusterStatus absentProbeMgr sampleMaster
          { initialState with clusterIsExist := true }).2.clusterIsExist = false := by
  refine ⟨Prod.ext (by decide) rfl, by decide, Prod.ext (by decide) rfl, by decide, by decide⟩

/-- C13: `initKubernetesCluster` on the first control-plane node
(`Index = 0`) of an absent cluster (`clusterIsExist = false`), for every world.
First, what the call adds to the history is `pre ++ loop ++ rest`, where
`pre` and `rest` hold neither `kubeadm init` nor the reset command and `loop`
is empty (the loop was not reached), or `init`, or `init, reset, init`, or
`init, reset, init, reset, init`: at most 3 runs of `kubeadm init`, and a
reset exactly between two attempts. Second, once the configuration is written
and the loop is entered: if attempt `k` (of 0, 1, 2) is the first to succeed,
the loop issued `init, reset` for each of the `k` failed attempts and then the
successful `init`, and nothing after it is `kubeadm init` or a reset; if all
three attempts fail, the function returns the error
`Failed to init kubernetes cluster` wrapping the third failure, the history
ends with the third `init` (no reset, no later step), and `clusterIsExist` is
still false. -/
theorem initKubernetesCluster_init_attempts (mgr : Manager) (node : HostCfg) (s : St)
    (hidx : mgr.Index = 0) (habs : s.clusterIsExist = false) :
    (∃ pre loop rest,
        (initKubernetesCluster mgr node s).2.trace = s.trace ++ pre ++ loop ++ rest
          ∧ (∀ e ∈ pre, quietEvent e) ∧ (∀ e ∈ rest, quietEvent e)
          ∧ loop ∈ [[], [Event.remote kubeadmInitCmd],
              [Event.remote kubeadmInitCmd, Event.remote resetCmd, Event.remote kubeadmInitCmd],
              [Event.remote kubeadmInitCmd, Event.remote resetCmd, Event.remote kubeadmInitCmd,
               Event.remote resetCmd, Event.remote kubeadmInitCmd]])
      ∧ ∀ (cfg : String) (s0 : St), kubeadmCfgBase64 mgr s = (Except.ok cfg, s0) →
          (mgr.env.executeCmd s0.trace (writeCfgCmd cfg) 1 false).err = none →
          (∀ k < 3,
              (∀ j < k, attemptErr mgr kubeadmInitCmd
                (s0.trace ++ [Event.remote (writeCfgCmd cfg)]) j ≠ none) →
              attemptErr mgr kubeadmInitCmd (s0.trace ++ [Event.remote (writeCfgCmd cfg)]) k
                = none →
              ∃ rest, (initKubernetesCluster mgr node s).2.trace
                  = attemptTrace (s0.trace ++ [Event.remote (writeCfgCmd cfg)]) kubeadmInitCmd k
                      ++ [Event.remote kubeadmInitCmd] ++ rest
                ∧ ∀ e ∈ rest, quietEvent e)
          ∧ ((∀ j < 2, attemptErr mgr kubeadmInitCmd
                (s0.trace ++ [Event.remote (writeCfgCmd cfg)]) j ≠ none) →
              ∀ e, attemptErr mgr kubeadmInitCmd
                  (s0.trace ++ [Event.remote (writeCfgCmd cfg)]) 2 = some e →
                initKubernetesCluster mgr node s
                    = (Outcome.error (wrap e "Failed to init kubernetes cluster"),
                       withTrace s0 (attemptTrace (s0.trace ++ [Event.remote (writeCfgCmd cfg)])
                          kubeadmInitCmd 2 ++ [Event.remote kubeadmInitCmd]))
                  ∧ (initKubernetesCluster mgr node s).2.clusterIsExist = false) := by
  have hpre : issues quietEvent s.trace (kubeadmCfgBase64 mgr s).2.trace :=
    issues_kubeadmCfgBase64 mgr s quietEvent_localSh quietEvent_generateKubeadmCfg
  have hflag : (kubeadmCfgBase64 mgr s).2.clusterIsExist = false := by
    rw [← habs]
    simp only [kubeadmCfgBase64, onTrace, localCommand]
    repeat' split
    all_goals rfl
  -- the two parts that depend on the loop being reached
  have hsucc : ∀ (cfg : String) (s0 : St), kubeadmCfgBase64 mgr s = (Except.ok cfg, s0) →
      (mgr.env.executeCmd s0.trace (writeCfgCmd cfg) 1 false).err = none →
      ∀ k < 3,
        (∀ j < k, attemptErr mgr kubeadmInitCmd
          (s0.trace ++ [Event.remote (writeCfgCmd cfg)]) j ≠ none) →
        attemptErr mgr kubeadmInitCmd (s0.trace ++ [Event.remote (writeCfgCmd cfg)]) k = none →
        ∃ rest, (initKubernetesCluster mgr node s).2.trace
            = attemptTrace (s0.trace ++ [Event.remote (writeCfgCmd cfg)]) kubeadmInitCmd k
                ++ [Event.remote kubeadmInitCmd] ++ rest
          ∧ ∀ e ∈ rest, quietEvent e := by
    intro cfg s0 hcfg hwr k hk hfail hok
    have hloop := retryLoop_first_success mgr kubeadmInitCmd "Failed to init kubernetes cluster"
      (ExecuteCmd mgr (writeCfgCmd cfg) 1 false s0).2 k hk hfail hok
    obtain ⟨rest, hrest, hq⟩ :=
      initKubernetesCluster_after_loop mgr node s s0 _ cfg hidx habs hcfg hwr hloop
    exact ⟨rest, hrest, hq⟩
  have hfailAll : ∀ (cfg : String) (s0 : St), kubeadmCfgBase64 mgr s = (Except.ok cfg, s0) →
      (mgr.env.executeCmd s0.trace (writeCfgCmd cfg) 1 false).err = none →
      (∀ j < 2, attemptErr mgr kubeadmInitCmd
        (s0.trace ++ [Event.remote (writeCfgCmd cfg)]) j ≠ none) →
      ∀ e, attemptErr mgr kubeadmInitCmd
          (s0.trace ++ [Event.remote (writeCfgCmd cfg)]) 2 = some e →
        initKubernetesCluster mgr node s
            = (Outcome.error (wrap e "Failed to init kubernetes cluster"),
               withTrace s0 (attemptTrace (s0.trace ++ [Event.remote (writeCfgCmd cfg)])
                  kubeadmInitCmd 2 ++ [Event.remote kubeadmInitCmd]))
          ∧ (initKubernetesCluster mgr node s).2.clusterIsExist = false := by
    intro cfg s0 hcfg hwr hfail e hlast
    have hloop := retryLoop_all_fail mgr kubeadmInitCmd "Failed to init kubernetes cluster"
      (ExecuteCmd mgr (writeCfgCmd cfg) 1 false s0).2 e hfail hlast
    have hres : initKubernetesCluster mgr node s
        = (Outcome.error (wrap e "Failed to init kubernetes cluster"),
           withTrace s0 (attemptTrace (s0.trace ++ [Event.remote (writeCfgCmd cfg)])
              kubeadmInitCmd 2 ++ [Event.remote kubeadmInitCmd])) := by
      rw [initKubernetesCluster_enters_loop mgr node s s0 cfg hidx habs hcfg hwr, hloop]
      rfl
    refine ⟨hres, ?_⟩
    rw [hres]
    rw [hcfg] at hflag
    exact hflag
  refine ⟨?_, fun cfg s0 hcfg hwr => ⟨hsucc cfg s0 hcfg hwr, hfailAll cfg s0 hcfg hwr⟩⟩
  -- the shape of the history in every case
  cases hc : kubeadmCfgBase64 mgr s with
  | mk res s0 =>
    rw [hc] at hpre
    obtain ⟨pre0, hpre0, hq0⟩ := hpre
    simp only at hpre0
    cases res with
    | error o =>
      refine ⟨pre0, [], [], ?_, hq0, by simp, by simp⟩
      simp [initKubernetesCluster, hidx, habs, hc, hpre0]
    | ok cfg =>
      have hqw : ∀ e ∈ pre0 ++ [Event.remote (writeCfgCmd cfg)], quietEvent e := by
        intro e he
        rcases List.mem_append.mp he with h | h
        · exact hq0 e h
        · rw [List.mem_singleton.mp h]
          exact quietEvent_writeCfg cfg
      cases hw : (mgr.env.executeCmd s0.trace (writeCfgCmd cfg) 1 false).err with
      | some e =>
        refine ⟨pre0 ++ [Event.remote (writeCfgCmd cfg)], [], [], ?_, hqw, by simp, by simp⟩
        simp only [writeCfgCmd] at hw
        simp only [initKubernetesCluster, hidx, habs, and_self, if_true, hc, ExecuteCmd, hw]
        simp [hpre0, writeCfgCmd]
      | none =>
        cases h0 : attemptErr mgr kubeadmInitCmd (s0.trace ++ [Event.remote (writeCfgCmd cfg)]) 0 with
        | none =>
          obtain ⟨rest, hrest, hq⟩ := hsucc cfg s0 hc hw 0 (by omega) (by intro j hj; omega) h0
          refine ⟨pre0 ++ [Event.remote (writeCfgCmd cfg)],
            [Event.remote kubeadmInitCmd],
          rest, ?_, hqw, hq, ?_⟩
          · rw [hrest, hpre0]
            simp only [attemptTrace, repeatEvents, List.append_nil, List.append_assoc]
          · simp
        | some e0 =>
          cases h1 : attemptErr mgr kubeadmInitCmd
              (s0.trace ++ [Event.remote (writeCfgCmd cfg)]) 1 with
          | none =>
            obtain ⟨rest, hrest, hq⟩ := hsucc cfg s0 hc hw 1 (by omega)
              (by
                intro j hj
                have : j = 0 := by omega
                subst this
                simp [h0]) h1
            refine ⟨pre0 ++ [Event.remote (writeCfgCmd cfg)],
            [Event.remote kubeadmInitCmd, Event.remote resetCmd, Event.remote kubeadmInitCmd],
            rest, ?_, hqw, hq, ?_⟩
            · rw [hrest, hpre0]
              simp only [attemptTrace, repeatEvents, List.append_nil, List.append_assoc,
                List.cons_append, List.nil_append]
            · simp
          | some e1 =>
            have hf2 : ∀ j < 2, attemptErr mgr kubeadmInitCmd
                (s0.trace ++ [Event.remote (writeCfgCmd cfg)]) j ≠ none := by
              intro j hj
              interval_cases j
              · simp [h0]
              · simp [h1]
            cases h2 : attemptErr mgr kubeadmInitCmd
                (s0.trace ++ [Event.remote (writeCfgCmd cfg)]) 2 with
            | none =>
              obtain ⟨rest, hrest, hq⟩ := hsucc cfg s0 hc hw 2 (by omega) hf2 h2
              refine ⟨pre0 ++ [Event.remote (writeCfgCmd cfg)],
            [Event.remote kubeadmInitCmd, Event.remote resetCmd, Event.remote kubeadmInitCmd, Event.remote resetCmd, Event.remote kubeadmInitCmd],
              rest, ?_, hqw, hq, ?_⟩
              · rw [hrest, hpre0]
                simp only [attemptTrace, repeatEvents, List.append_nil, List.append_assoc,
                  List.cons_append, List.nil_append]
              · simp
            | some e2 =>
              obtain ⟨hres, _⟩ := hfailAll cfg s0 hc hw hf2 e2 h2
              refine ⟨pre0 ++ [Event.remote (writeCfgCmd cfg)],
                [Event.remote kubeadmInitCmd, Event.remote resetCmd, Event.remote kubeadmInitCmd, Event.remote resetCmd, Event.remote kubeadmInitCmd],
                [], ?_, hqw, by simp, ?_⟩
              · rw [hres]
                simp only [withTrace, hpre0, attemptTrace, repeatEvents, List.append_nil,
                  List.append_assoc, List.cons_append, List.nil_append]
              · simp

set_option maxRecDepth 100000 in
/-- C13, in the sample world: when `kubeadm init` fails three times, and when
it fails once and then succeeds. -/
theorem initKubernetesCluster_init_attempts_witness :
    (initKubernetesCluster (retryMgr 3) sampleMaster initialState
        = (Outcome.error (wrap "exit status 1" "Failed to init kubernetes cluster"),
           withTrace (withTrace initialState [Event.generateKubeadmCfg])
            (attemptTrace ([Event.generateKubeadmCfg]
                ++ [Event.remote (writeCfgCmd "kind: ClusterConfiguration")]) kubeadmInitCmd 2
              ++ [Event.remote kubeadmInitCmd]))
      ∧ (initKubernetesCluster (retryMgr 3) sampleMaster initialState).2.clusterIsExist = false)
    ∧ ∃ rest, (initKubernetesCluster (retryMgr 1) sampleMaster initialState).2.trace
          = attemptTrace ([Event.generateKubeadmCfg]
                ++ [Event.remote (writeCfgCmd "kind: ClusterConfiguration")]) kubeadmInitCmd 1
              ++ [Event.remote kubeadmInitCmd] ++ rest
        ∧ ∀ e ∈ rest, quietEvent e :=
  ⟨((initKubernetesCluster_init_attempts (retryMgr 3) sampleMaster initialState rfl rfl).2
      "kind: ClusterConfiguration" (withTrace initialState [Event.generateKubeadmCfg])
      rfl (by decide)).2 (by decide) "exit status 1" (by decide),
   ((initKubernetesCluster_init_attempts (retryMgr 1) sampleMaster initialState rfl rfl).2
      "kind: ClusterConfiguration" (withTrace initialState [Event.generateKubeadmCfg])
      rfl (by decide)).1 1 (by decide) (by decide) (by decide)⟩

/-- C14: `joinNodesToCluster` on a node that is not in the known-node-names
set, for every world. A master node starts with the stored master-join
command and issues only that command, the reset command, the command of
`GetKubeConfig`, the taint command and the label command; with the join
commands stored as `getJoinCmd` writes them, the worker-join command is not
among what it issues, also when the node is a worker too. A worker-only node
starts with the stored worker-join command, goes on with that command and the
reset command only, and then issues a beginning of the sequence: create the
kubeconfig directories, write the stored kubeconfig to `/root/.kube/config`,
write it to `$HOME/.kube/config`, apply the worker label; the master-join
command is not among what it issues. When the worker join first succeeds at
attempt `k` and the directory command and the two writes succeed, the node
issues exactly these four commands after the join, in this order, and the
function returns `nil`. A node that is neither master nor worker issues no
command. -/
theorem joinNodesToCluster_by_role (mgr : Manager) (node : HostCfg) (s : St)
    (hnew : ExistNodeName s node.Name = false) :
    (node.IsMaster = true →
        ∃ ext, (joinNodesToCluster mgr node s).2.trace
            = s.trace ++ Event.remote (joinMasterCmd s) :: ext
          ∧ (∀ e ∈ ext, e ∈ masterJoinEvents s node)
          ∧ (joinCmdsStored s →
              Event.remote (joinWorkerCmd s) ∉ Event.remote (joinMasterCmd s) :: ext))
      ∧ (node.IsMaster = false → node.IsWorker = true →
          (∃ loopPart post, (joinNodesToCluster mgr node s).2.trace
              = s.trace ++ Event.remote (joinWorkerCmd s) :: loopPart ++ post
            ∧ (∀ e ∈ loopPart, e = Event.remote (joinWorkerCmd s) ∨ e = Event.remote resetCmd)
            ∧ post <+: [Event.remote mkdirKubeCmd,
                Event.remote (syncRootCmd (mapGet s.clusterStatus "kubeConfig")),
                Event.remote (syncUserCmd (mapGet s.clusterStatus "kubeConfig")),
                Event.remote (labelCmd node)]
            ∧ (joinCmdsStored s →
                Event.remote (joinMasterCmd s)
                  ∉ Event.remote (joinWorkerCmd s) :: loopPart ++ post))
          ∧ ∀ k < 3,
              (∀ j < k, attemptErr mgr (joinWorkerCmd s) s.trace j ≠ none) →
              attemptErr mgr (joinWorkerCmd s) s.trace k = none →
              (mgr.env.executeCmd
                (attemptTrace s.trace (joinWorkerCmd s) k ++ [Event.remote (joinWorkerCmd s)])
                mkdirKubeCmd 1 false).err = none →
              (mgr.env.executeCmd
                (attemptTrace s.trace (joinWorkerCmd s) k ++ [Event.remote (joinWorkerCmd s)]
                  ++ [Event.remote mkdirKubeCmd])
                (syncRootCmd (mapGet s.clusterStatus "kubeConfig")) 1 false).err = none →
              (mgr.env.executeCmd
                (attemptTrace s.trace (joinWorkerCmd s) k ++ [Event.remote (joinWorkerCmd s)]
                  ++ [Event.remote mkdirKubeCmd,
                      Event.remote (syncRootCmd (mapGet s.clusterStatus "kubeConfig"))])
                (syncUserCmd (mapGet s.clusterStatus "kubeConfig")) 1 false).err = none →
              joinNodesToCluster mgr node s
                = (Outcome.ok, withTrace s
                    (attemptTrace s.trace (joinWorkerCmd s) k
                      ++ [Event.remote (joinWorkerCmd s)]
                      ++ [Event.remote mkdirKubeCmd,
                          Event.remote (syncRootCmd (mapGet s.clusterStatus "kubeConfig")),
                          Event.remote (syncUserCmd (mapGet s.clusterStatus "kubeConfig")),
                          Event.remote (labelCmd node)])))
      ∧ (node.IsMaster = false → node.IsWorker = false →
          joinNodesToCluster mgr node s = (Outcome.ok, s)) := by
  refine ⟨?_, ?_, ?_⟩
  · intro hm
    obtain ⟨ext, hext, hall⟩ := issues_master_path mgr node s hnew hm
    refine ⟨ext, by rw [hext]; simp, hall, ?_⟩
    intro hstored hmem
    have hd := (join_cmds_distinct s node hstored).1
    rcases List.mem_cons.mp hmem with h | h
    · exact hd (by rw [h]; simp [masterJoinEvents])
    · exact hd (hall _ h)
  · intro hm hw
    constructor
    · obtain ⟨lp, post, htr, hall, hpre⟩ := worker_path_shape mgr node s hnew hm hw
      refine ⟨lp, post, htr, hall, hpre, ?_⟩
      intro hstored hmem
      have hd := (join_cmds_distinct s node hstored).2
      have hin : ∀ e ∈ Event.remote (joinWorkerCmd s) :: lp ++ post,
          e ∈ workerJoinEvents s node := by
        intro e he
        rcases List.mem_append.mp he with h | h
        · rcases List.mem_cons.mp h with h | h
          · rw [h]
            simp [workerJoinEvents]
          · rcases hall e h with h | h <;> rw [h] <;> simp [workerJoinEvents]
        · have := hpre.subset h
          simp only [List.mem_cons, List.mem_singleton, List.not_mem_nil, or_false] at this
          rcases this with h | h | h | h <;> rw [h] <;> simp [workerJoinEvents]
      exact hd (hin _ hmem)
    · intro k hk hfail hok h1 h2 h3
      exact worker_join_success mgr node s hnew hm hw k hk hfail hok h1 h2 h3
  · intro hm hw
    simp [joinNodesToCluster, hnew, hm, hw]

set_option maxRecDepth 100000 in
/-- C14, in the sample world after `getJoinCmd`: the join commands are stored,
and the worker-only node `node2` joins at the first attempt, writes the
kubeconfig twice and is labelled. -/
theorem joinNodesToCluster_by_role_witness :
    joinCmdsStored (getJoinCmd (sampleMgr sampleUploadOutput) initialState).2
    ∧ joinNodesToCluster (sampleMgr sampleUploadOutput) sampleWorker
        (getJoinCmd (sampleMgr sampleUploadOutput) initialState).2
      = (Outcome.ok, withTrace (getJoinCmd (sampleMgr sampleUploadOutput) initialState).2
          (attemptTrace (getJoinCmd (sampleMgr sampleUploadOutput) initialState).2.trace
              (joinWorkerCmd (getJoinCmd (sampleMgr sampleUploadOutput) initialState).2) 0
            ++ [Event.remote
                (joinWorkerCmd (getJoinCmd (sampleMgr sampleUploadOutput) initialState).2)]
            ++ [Event.remote mkdirKubeCmd,
                Event.remote (syncRootCmd (mapGet
                  (getJoinCmd (sampleMgr sampleUploadOutput) initialState).2.clusterStatus
                  "kubeConfig")),
                Event.remote (syncUserCmd (mapGet
                  (getJoinCmd (sampleMgr sampleUploadOutput) initialState).2.clusterStatus
                  "kubeConfig")),
                Event.remote (labelCmd sampleWorker)])) :=
  ⟨getJoinCmd_joinCmdsStored (sampleMgr sampleUploadOutput) initialState _
    (Prod.ext (by decide) rfl),
  ((joinNodesToCluster_by_role (sampleMgr sampleUploadOutput) sampleWorker
      (getJoinCmd (sampleMgr sampleUploadOutput) initialState).2 (by decide)).2.1
    rfl rfl).2 0 (by decide) (by decide) (by decide) (by decide) (by decide) (by decide)⟩

end Kubekey
